import Mathlib

/-!
# VulkanBase: device selection, swapchain negotiation and the frame loop

A shallow embedding of `src/main.cpp`.  Every C++ function that is reasoned
about is a Lean function of the same name.  Calls into the Vulkan driver are
inputs: a physical device is the record of what the driver answers for it, and
the calls the program issues are collected, in order, in a list of `Op`s.
Unsigned 32-bit arithmetic is arithmetic on `Nat` reduced with `wrap32`.
-/

namespace VulkanBase

/-! ## Machine integers and the ways a call can end -/

/-- The value of `std::numeric_limits<uint32_t>::max()`. -/
def UINT32_MAX : Nat := 4294967295

/-- The value of `UINT64_MAX`, the timeout of the waits. -/
def UINT64_MAX : Nat := 18446744073709551615

/-- A natural number reduced to the range of `uint32_t`. -/
def wrap32 (n : Nat) : Nat := n % 4294967296

/-- The ways a call of a C++ function ends: it returns a value, it throws a
`std::runtime_error` (or another `std::exception`) with a message, or it runs
into undefined behaviour (a read outside a container, a violated precondition
of the standard library). -/
inductive Outcome (α : Type) where
  | ok (value : α)
  | threw (what : String)
  | undefined
  deriving DecidableEq, Repr

/-! ## Data model -/

/-- The enumerators of `vk::PhysicalDeviceType`. -/
inductive PhysicalDeviceType where
  | eOther
  | eIntegratedGpu
  | eDiscreteGpu
  | eVirtualGpu
  | eCpu
  deriving DecidableEq, Repr

/-- The bit `vk::QueueFlagBits::eGraphics` (`VK_QUEUE_GRAPHICS_BIT`). -/
def QueueFlagBits.eGraphics : Nat := 1

/-- The part of `vk::QueueFamilyProperties` the program reads: the capability
bit mask. -/
structure QueueFamilyProperties where
  queueFlags : Nat
  deriving DecidableEq, Repr

/-- A `vk::SurfaceFormatKHR`: the raw values of `vk::Format` and of
`vk::ColorSpaceKHR`. -/
structure SurfaceFormatKHR where
  format : Nat
  colorSpace : Nat
  deriving DecidableEq, Repr

/-- A `vk::Extent2D`. -/
structure Extent2D where
  width : Nat
  height : Nat
  deriving DecidableEq, Repr

/-- The fields of `vk::SurfaceCapabilitiesKHR` the program reads. -/
structure SurfaceCapabilitiesKHR where
  minImageCount : Nat
  maxImageCount : Nat
  currentExtent : Extent2D
  minImageExtent : Extent2D
  maxImageExtent : Extent2D
  currentTransform : Nat
  deriving DecidableEq, Repr

/-- A `vk::PhysicalDevice` together with the surface of the program: the answers
of the driver to the queries the program makes on the device.
`surfaceSupport i` is the answer of `getSurfaceSupportKHR(i, surface)`. -/
structure PhysicalDevice where
  handle : Nat
  deviceType : PhysicalDeviceType
  queueFamilyProperties : List QueueFamilyProperties
  surfaceSupport : Nat → Bool
  extensionNames : List String
  surfaceCapabilities : SurfaceCapabilitiesKHR
  surfaceFormats : List SurfaceFormatKHR
  presentModes : List Nat

/-- The struct `QueueFamilyIndices`: two `std::optional<uint32_t>`. -/
structure QueueFamilyIndices where
  graphicsQueue : Option Nat
  presentQueue : Option Nat
  deriving DecidableEq, Repr

/-- The method `QueueFamilyIndices::complete`. -/
def QueueFamilyIndices.complete (indices : QueueFamilyIndices) : Bool :=
  indices.graphicsQueue.isSome && indices.presentQueue.isSome

/-- The struct `SwapChainSupportDetails`. -/
structure SwapChainSupportDetails where
  capabilities : SurfaceCapabilitiesKHR
  formats : List SurfaceFormatKHR
  presentModes : List Nat
  deriving DecidableEq, Repr

/-- The global `deviceExtensions`: `VK_KHR_SWAPCHAIN_EXTENSION_NAME` and
`VK_KHR_DYNAMIC_RENDERING_EXTENSION_NAME`. -/
def deviceExtensions : List String :=
  ["VK_KHR_swapchain", "VK_KHR_dynamic_rendering"]

/-! ## Device selection -/

/-- The body of the loop of `Graphics::findQueueFamilies`, run over the families
that are left, with the counter `i` (a `uint32_t`) and the indices found so
far. -/
def findQueueFamiliesLoop (physDevice : PhysicalDevice) :
    List QueueFamilyProperties → Nat → QueueFamilyIndices → QueueFamilyIndices
  | [], _, indices => indices
  | queueFamily :: rest, i, indices =>
    let indices1 : QueueFamilyIndices :=
      if queueFamily.queueFlags &&& QueueFlagBits.eGraphics ≠ 0 then
        { indices with graphicsQueue := some i }
      else indices
    let indices2 : QueueFamilyIndices :=
      if physDevice.surfaceSupport i then
        { indices1 with presentQueue := some i }
      else indices1
    findQueueFamiliesLoop physDevice rest (wrap32 (i + 1)) indices2

/-- The function `Graphics::findQueueFamilies`. -/
def findQueueFamilies (physDevice : PhysicalDevice) : QueueFamilyIndices :=
  findQueueFamiliesLoop physDevice physDevice.queueFamilyProperties 0
    { graphicsQueue := none, presentQueue := none }

/-- The function `Graphics::checkDeviceExtensionSupport`.  The `std::set` of
required names is a list from which `erase` removes every equal entry; the
set is empty exactly when the list is. -/
def checkDeviceExtensionSupport (physDevice : PhysicalDevice) : Bool :=
  (physDevice.extensionNames.foldl
    (fun requiredExtensions extensionName =>
      requiredExtensions.filter (fun r => r != extensionName))
    deviceExtensions).isEmpty

/-- The function `Graphics::querySwapChainSupport`. -/
def querySwapChainSupport (physDevice : PhysicalDevice) : SwapChainSupportDetails :=
  { capabilities := physDevice.surfaceCapabilities
    formats := physDevice.surfaceFormats
    presentModes := physDevice.presentModes }

/-- The `switch` of `Graphics::physicalDeviceRating` on the device type. -/
def baseScore : PhysicalDeviceType → Nat
  | .eDiscreteGpu => 10000
  | .eIntegratedGpu => 1000
  | .eVirtualGpu => 100
  | .eCpu => 10
  | _ => 1

/-- The function `Graphics::physicalDeviceRating`. -/
def physicalDeviceRating (physDevice : PhysicalDevice) : Nat :=
  let score := baseScore physDevice.deviceType
  let indices := findQueueFamilies physDevice
  let score := if !indices.complete then 0 else score
  let extensionsSupported := checkDeviceExtensionSupport physDevice
  let score := if !extensionsSupported then 0 else score
  let score :=
    if extensionsSupported then
      let swapChainSupport := querySwapChainSupport physDevice
      if swapChainSupport.formats.isEmpty || swapChainSupport.presentModes.isEmpty then 0
      else score
    else score
  score

/-- The call `std::multimap::insert`: the entry goes before the first entry
with a greater key, that is after the entries with an equal key. -/
def multimapInsert {α : Type} (entry : Nat × α) : List (Nat × α) → List (Nat × α)
  | [] => [entry]
  | e :: rest =>
    if entry.1 < e.1 then entry :: e :: rest
    else e :: multimapInsert entry rest

/-- The loop of `Graphics::pickPhysicalDevice` that fills `candidates`. -/
def candidates (physicalDevices : List PhysicalDevice) : List (Nat × PhysicalDevice) :=
  physicalDevices.foldl
    (fun candidates physDevice =>
      multimapInsert (physicalDeviceRating physDevice, physDevice) candidates)
    []

/-- The function `Graphics::pickPhysicalDevice` on the devices the instance
enumerates; the value returned is the device stored in `physicalDevice`.
`candidates.rbegin()` is the last entry of the sorted list; dereferencing it
on an empty map is undefined behaviour. -/
def pickPhysicalDevice (physicalDevices : List PhysicalDevice) : Outcome PhysicalDevice :=
  match (candidates physicalDevices).getLast? with
  | none => .undefined
  | some rbegin =>
    if rbegin.1 > 0 then .ok rbegin.2
    else .threw "could not find a suitable device"


/-! ## Swapchain negotiation -/

/-- The enumerator `vk::Format::eB8G8R8A8Srgb` (`VK_FORMAT_B8G8R8A8_SRGB`). -/
def Format.eB8G8R8A8Srgb : Nat := 50

/-- The enumerator `vk::ColorSpaceKHR::eSrgbNonlinear`. -/
def ColorSpaceKHR.eSrgbNonlinear : Nat := 0

/-- The enumerator `vk::PresentModeKHR::eMailbox`. -/
def PresentModeKHR.eMailbox : Nat := 1

/-- The enumerator `vk::PresentModeKHR::eFifo`. -/
def PresentModeKHR.eFifo : Nat := 2

/-- The function `Graphics::chooseSwapSurfaceFormat`: the loop returns the first
entry that passes the test; after the loop `availableFormats[0]` is read, which is
undefined behaviour on an empty vector. -/
def chooseSwapSurfaceFormat (availableFormats : List SurfaceFormatKHR) :
    Outcome SurfaceFormatKHR :=
  match availableFormats.find? (fun availableFormat =>
      availableFormat.format == Format.eB8G8R8A8Srgb &&
        availableFormat.colorSpace == ColorSpaceKHR.eSrgbNonlinear) with
  | some availableFormat => .ok availableFormat
  | none =>
    match availableFormats[0]? with
    | some first => .ok first
    | none => .undefined

/-- The function `Graphics::chooseSwapPresentMode`. -/
def chooseSwapPresentMode (availablePresentModes : List Nat) : Nat :=
  match availablePresentModes.find? (fun availablePresentMode =>
      availablePresentMode == PresentModeKHR.eMailbox) with
  | some availablePresentMode => availablePresentMode
  | none => PresentModeKHR.eFifo

/-- The function `std::clamp` on unsigned values: `lo` when `v < lo`, `hi` when
`hi < v`, else `v`; the behaviour is undefined when `hi < lo`. -/
def clamp (v lo hi : Nat) : Outcome Nat :=
  if hi < lo then .undefined
  else .ok (if v < lo then lo else if hi < v then hi else v)

/-- The conversion `static_cast<uint32_t>` of an `int`. -/
def static_cast_uint32 (n : Int) : Nat := (n % 4294967296).toNat

/-- The function `Graphics::chooseSwapExtent`; `width` and `height` are the two
`int`s that `glfwGetFramebufferSize` stores. -/
def chooseSwapExtent (capabilities : SurfaceCapabilitiesKHR) (width height : Int) :
    Outcome Extent2D :=
  if capabilities.currentExtent.width ≠ UINT32_MAX then
    .ok capabilities.currentExtent
  else
    let actualExtent : Extent2D :=
      { width := static_cast_uint32 width, height := static_cast_uint32 height }
    match clamp actualExtent.width capabilities.minImageExtent.width
        capabilities.maxImageExtent.width with
    | .ok clampedWidth =>
      match clamp actualExtent.height capabilities.minImageExtent.height
          capabilities.maxImageExtent.height with
      | .ok clampedHeight => .ok { width := clampedWidth, height := clampedHeight }
      | .threw what => .threw what
      | .undefined => .undefined
    | .threw what => .threw what
    | .undefined => .undefined

/-- The local `imageCount` of `Graphics::createSwapChain` once the `if` that
follows its initialisation has run (a `uint32_t`). -/
def imageCount (capabilities : SurfaceCapabilitiesKHR) : Nat :=
  let imageCount := wrap32 (capabilities.minImageCount + 1)
  if capabilities.maxImageCount > 0 ∧ imageCount > capabilities.maxImageCount then
    capabilities.maxImageCount
  else imageCount

/-- The bit `vk::ImageUsageFlagBits::eColorAttachment`. -/
def ImageUsageFlagBits.eColorAttachment : Nat := 16

/-- The bit `vk::CompositeAlphaFlagBitsKHR::eOpaque`. -/
def CompositeAlphaFlagBitsKHR.eOpaque : Nat := 1

/-- The constant `VK_NULL_HANDLE`. -/
def VK_NULL_HANDLE : Nat := 0

/-- The enumerators of `vk::SharingMode`. -/
inductive SharingMode where
  | eExclusive
  | eConcurrent
  deriving DecidableEq, Repr

/-- The struct `vk::SwapchainCreateInfoKHR` as `createSwapChain` fills it. -/
structure SwapchainCreateInfoKHR where
  surface : Nat
  minImageCount : Nat
  imageFormat : Nat
  imageColorSpace : Nat
  imageExtent : Extent2D
  imageArrayLayers : Nat
  imageUsage : Nat
  preTransform : Nat
  compositeAlpha : Nat
  presentMode : Nat
  clipped : Bool
  oldSwapchain : Nat
  imageSharingMode : SharingMode
  queueFamilyIndexCount : Nat
  pQueueFamilyIndices : List Nat
  deriving DecidableEq, Repr

/-- The call `std::optional::value`, which throws `std::bad_optional_access` on
an empty optional. -/
def optionalValue {α : Type} : Option α → Outcome α
  | some a => .ok a
  | none => .threw "bad optional access"

/-- The function `Graphics::createSwapChain` up to the call of
`createSwapchainKHR`: the create info handed to the driver. -/
def createSwapChain (surface : Nat) (physicalDevice : PhysicalDevice) (width height : Int) :
    Outcome SwapchainCreateInfoKHR :=
  let swapChainSupport := querySwapChainSupport physicalDevice
  match chooseSwapSurfaceFormat swapChainSupport.formats with
  | .threw what => .threw what
  | .undefined => .undefined
  | .ok surfaceFormat =>
    let presentMode := chooseSwapPresentMode swapChainSupport.presentModes
    match chooseSwapExtent swapChainSupport.capabilities width height with
    | .threw what => .threw what
    | .undefined => .undefined
    | .ok extent =>
      let imageCount := imageCount swapChainSupport.capabilities
      let indices := findQueueFamilies physicalDevice
      match optionalValue indices.graphicsQueue with
      | .threw what => .threw what
      | .undefined => .undefined
      | .ok graphicsIndex =>
        match optionalValue indices.presentQueue with
        | .threw what => .threw what
        | .undefined => .undefined
        | .ok presentIndex =>
          let concurrent := indices.graphicsQueue ≠ indices.presentQueue
          .ok
            { surface := surface
              minImageCount := imageCount
              imageFormat := surfaceFormat.format
              imageColorSpace := surfaceFormat.colorSpace
              imageExtent := extent
              imageArrayLayers := 1
              imageUsage := ImageUsageFlagBits.eColorAttachment
              preTransform := swapChainSupport.capabilities.currentTransform
              compositeAlpha := CompositeAlphaFlagBitsKHR.eOpaque
              presentMode := presentMode
              clipped := true
              oldSwapchain := VK_NULL_HANDLE
              imageSharingMode := if concurrent then .eConcurrent else .eExclusive
              queueFamilyIndexCount := if concurrent then 2 else 0
              pQueueFamilyIndices := if concurrent then [graphicsIndex, presentIndex] else [] }

/-! ## Commands and device operations -/

/-- The enumerator `vk::ImageLayout::eUndefined`. -/
def ImageLayout.eUndefined : Nat := 0

/-- The enumerator `vk::ImageLayout::eColorAttachmentOptimal`. -/
def ImageLayout.eColorAttachmentOptimal : Nat := 2

/-- The enumerator `vk::ImageLayout::ePresentSrcKHR`. -/
def ImageLayout.ePresentSrcKHR : Nat := 1000001002

/-- The bit `vk::AccessFlagBits::eColorAttachmentWrite`. -/
def AccessFlagBits.eColorAttachmentWrite : Nat := 256

/-- The bit `vk::PipelineStageFlagBits::eTopOfPipe`. -/
def PipelineStageFlagBits.eTopOfPipe : Nat := 1

/-- The bit `vk::PipelineStageFlagBits::eColorAttachmentOutput`. -/
def PipelineStageFlagBits.eColorAttachmentOutput : Nat := 1024

/-- The bit `vk::PipelineStageFlagBits::eBottomOfPipe`. -/
def PipelineStageFlagBits.eBottomOfPipe : Nat := 8192

/-- The bit `vk::ImageAspectFlagBits::eColor`. -/
def ImageAspectFlagBits.eColor : Nat := 1

/-- The constant `VK_QUEUE_FAMILY_IGNORED`. -/
def VK_QUEUE_FAMILY_IGNORED : Nat := 4294967295

/-- The enumerator `vk::AttachmentLoadOp::eDontCare`. -/
def AttachmentLoadOp.eDontCare : Nat := 2

/-- The enumerator `vk::AttachmentStoreOp::eStore`. -/
def AttachmentStoreOp.eStore : Nat := 0

/-- The enumerator `vk::PipelineBindPoint::eGraphics`. -/
def PipelineBindPoint.eGraphics : Nat := 0

/-- The bit `vk::FenceCreateFlagBits::eSignaled`. -/
def FenceCreateFlagBits.eSignaled : Nat := 1

/-- A `vk::ImageSubresourceRange`. -/
structure ImageSubresourceRange where
  aspectMask : Nat
  baseMipLevel : Nat
  levelCount : Nat
  baseArrayLayer : Nat
  layerCount : Nat
  deriving DecidableEq, Repr

/-- A `vk::ImageMemoryBarrier`. -/
structure ImageMemoryBarrier where
  srcAccessMask : Nat
  dstAccessMask : Nat
  oldLayout : Nat
  newLayout : Nat
  srcQueueFamilyIndex : Nat
  dstQueueFamilyIndex : Nat
  image : Nat
  subresourceRange : ImageSubresourceRange
  deriving DecidableEq, Repr

/-- A `vk::RenderingAttachmentInfo`. -/
structure RenderingAttachmentInfo where
  imageView : Nat
  imageLayout : Nat
  loadOp : Nat
  storeOp : Nat
  deriving DecidableEq, Repr

/-- A `vk::RenderingInfo`: the extent of the render area, the layer count and
the colour attachments. -/
structure RenderingInfo where
  renderAreaExtent : Extent2D
  layerCount : Nat
  colorAttachments : List RenderingAttachmentInfo
  deriving DecidableEq, Repr

/-- A call on a `vk::CommandBuffer` that records into it. -/
inductive Command where
  | begin
  | pipelineBarrier (srcStageMask dstStageMask dependencyFlags : Nat)
      (imageMemoryBarriers : List ImageMemoryBarrier)
  | beginRendering (renderingInfo : RenderingInfo)
  | bindPipeline (pipelineBindPoint pipeline : Nat)
  | draw (vertexCount instanceCount firstVertex firstInstance : Nat)
  | endRendering
  | endCommandBuffer
  deriving DecidableEq, Repr

/-- A `vk::SubmitInfo`. -/
structure SubmitInfo where
  waitSemaphores : List Nat
  waitDstStageMask : List Nat
  commandBuffers : List Nat
  signalSemaphores : List Nat
  deriving DecidableEq, Repr

/-- A `vk::PresentInfoKHR`. -/
structure PresentInfoKHR where
  waitSemaphores : List Nat
  swapchains : List Nat
  imageIndices : List Nat
  deriving DecidableEq, Repr

/-- A call the program issues to the device, a queue or a command buffer. -/
inductive Op where
  | createSemaphore
  | createFence (flags : Nat)
  | acquireNextImageKHR (swapchain timeout semaphore fence : Nat)
  | waitForFences (fences : List Nat) (waitAll : Bool) (timeout : Nat)
  | resetFences (fences : List Nat)
  | reset (commandBuffer : Nat)
  | record (commandBuffer : Nat) (command : Command)
  | submit (queue : Nat) (submits : List SubmitInfo) (fence : Nat)
  | presentKHR (queue : Nat) (presentInfo : PresentInfoKHR)
  | waitIdle
  deriving DecidableEq, Repr

/-- The members of `Graphics` that the frame loop reads, as handles. -/
structure Graphics where
  graphicsQueue : Nat
  presentQueue : Nat
  swapChain : Nat
  swapChainImages : List Nat
  swapChainImageViews : List Nat
  swapChainExtent : Extent2D
  graphicsPipeline : Nat
  commandBuffer : Nat
  imageAvailableSemaphore : Nat
  renderFinishedSemaphore : Nat
  inFlightFence : Nat
  deriving DecidableEq, Repr

/-- A run of a member function: the operations issued so far, in order, and how
the call ended. -/
structure Run (α : Type) where
  trace : List Op
  result : Outcome α
  deriving DecidableEq, Repr

/-- The function `Graphics::createSyncObjects`; the three handles are what the
device returns for the three creations. -/
def createSyncObjects (g : Graphics) (semaphore1 semaphore2 fence : Nat) (trace : List Op) :
    Run Graphics :=
  { trace := trace ++
      [Op.createSemaphore, Op.createSemaphore, Op.createFence FenceCreateFlagBits.eSignaled]
    result := .ok
      { g with
        imageAvailableSemaphore := semaphore1
        renderFinishedSemaphore := semaphore2
        inFlightFence := fence } }

/-- The function `Graphics::cmdTransitionImageLayout`. -/
def cmdTransitionImageLayout (cmdBuffer image oldLayout newLayout : Nat) (trace : List Op) :
    Run Unit :=
  let barrier : ImageMemoryBarrier :=
    { srcAccessMask := 0
      dstAccessMask := 0
      oldLayout := oldLayout
      newLayout := newLayout
      srcQueueFamilyIndex := VK_QUEUE_FAMILY_IGNORED
      dstQueueFamilyIndex := VK_QUEUE_FAMILY_IGNORED
      image := image
      subresourceRange :=
        { aspectMask := ImageAspectFlagBits.eColor
          baseMipLevel := 0
          levelCount := 1
          baseArrayLayer := 0
          layerCount := 1 } }
  if oldLayout = ImageLayout.eUndefined ∧ newLayout = ImageLayout.eColorAttachmentOptimal then
    let barrier :=
      { barrier with
        srcAccessMask := 0
        dstAccessMask := AccessFlagBits.eColorAttachmentWrite }
    let sourceStage := PipelineStageFlagBits.eTopOfPipe
    let destinationStage := PipelineStageFlagBits.eColorAttachmentOutput
    { trace := trace ++
        [Op.record cmdBuffer (.pipelineBarrier sourceStage destinationStage 0 [barrier])]
      result := .ok () }
  else if oldLayout = ImageLayout.eColorAttachmentOptimal ∧
      newLayout = ImageLayout.ePresentSrcKHR then
    let barrier :=
      { barrier with
        srcAccessMask := AccessFlagBits.eColorAttachmentWrite
        dstAccessMask := 0 }
    let sourceStage := PipelineStageFlagBits.eColorAttachmentOutput
    let destinationStage := PipelineStageFlagBits.eBottomOfPipe
    { trace := trace ++
        [Op.record cmdBuffer (.pipelineBarrier sourceStage destinationStage 0 [barrier])]
      result := .ok () }
  else
    { trace := trace, result := .threw "unknown layout transition" }

/-- The function `Graphics::recordCommandBuffer`.  The reads
`swapChainImageViews[imageIndex]` and `swapChainImages[imageIndex]` outside the
vectors are undefined behaviour; the last call, `commandBuffer.end()`, is on the
member `commandBuffer`. -/
def recordCommandBuffer (g : Graphics) (cmdBuffer imageIndex : Nat) (trace : List Op) :
    Run Unit :=
  let trace := trace ++ [Op.record cmdBuffer .begin]
  match g.swapChainImageViews[imageIndex]? with
  | none => { trace := trace, result := .undefined }
  | some imageView =>
    let colorAttachmentInfo : RenderingAttachmentInfo :=
      { imageView := imageView
        imageLayout := ImageLayout.eColorAttachmentOptimal
        loadOp := AttachmentLoadOp.eDontCare
        storeOp := AttachmentStoreOp.eStore }
    let renderingInfo : RenderingInfo :=
      { renderAreaExtent := g.swapChainExtent
        layerCount := 1
        colorAttachments := [colorAttachmentInfo] }
    match g.swapChainImages[imageIndex]? with
    | none => { trace := trace, result := .undefined }
    | some image =>
      let first := cmdTransitionImageLayout cmdBuffer image ImageLayout.eUndefined
        ImageLayout.eColorAttachmentOptimal trace
      match first.result with
      | .threw what => { trace := first.trace, result := .threw what }
      | .undefined => { trace := first.trace, result := .undefined }
      | .ok () =>
        let trace := first.trace ++
          [Op.record cmdBuffer (.beginRendering renderingInfo),
           Op.record cmdBuffer (.bindPipeline PipelineBindPoint.eGraphics g.graphicsPipeline),
           Op.record cmdBuffer (.draw 3 1 0 0),
           Op.record cmdBuffer .endRendering]
        let second := cmdTransitionImageLayout cmdBuffer image
          ImageLayout.eColorAttachmentOptimal ImageLayout.ePresentSrcKHR trace
        match second.result with
        | .threw what => { trace := second.trace, result := .threw what }
        | .undefined => { trace := second.trace, result := .undefined }
        | .ok () =>
          { trace := second.trace ++ [Op.record g.commandBuffer .endCommandBuffer]
            result := .ok () }

/-- The function `Graphics::drawFrame`; `imageIndex` is the value the call of
`acquireNextImageKHR` returns.  The calls into the driver return normally. -/
def drawFrame (g : Graphics) (imageIndex : Nat) (trace : List Op) : Run Unit :=
  let trace := trace ++
    [Op.acquireNextImageKHR g.swapChain UINT64_MAX g.imageAvailableSemaphore VK_NULL_HANDLE,
     Op.waitForFences [g.inFlightFence] true UINT64_MAX,
     Op.resetFences [g.inFlightFence],
     Op.reset g.commandBuffer]
  let recorded := recordCommandBuffer g g.commandBuffer imageIndex trace
  match recorded.result with
  | .threw what => { trace := recorded.trace, result := .threw what }
  | .undefined => { trace := recorded.trace, result := .undefined }
  | .ok () =>
    let waitSemaphores := [g.imageAvailableSemaphore]
    let waitStages := [PipelineStageFlagBits.eColorAttachmentOutput]
    let signalSemaphores := [g.renderFinishedSemaphore]
    let submitInfo : SubmitInfo :=
      { waitSemaphores := waitSemaphores
        waitDstStageMask := waitStages
        commandBuffers := [g.commandBuffer]
        signalSemaphores := signalSemaphores }
    let presentInfo : PresentInfoKHR :=
      { waitSemaphores := signalSemaphores
        swapchains := [g.swapChain]
        imageIndices := [imageIndex] }
    { trace := recorded.trace ++
        [Op.submit g.graphicsQueue [submitInfo] g.inFlightFence,
         Op.presentKHR g.presentQueue presentInfo]
      result := .ok () }

/-- The `while` loop of `Graphics::runMainLoop`: one `drawFrame` for each image
index the swapchain hands out before the window is closed; an exception or
undefined behaviour in a frame ends the loop. -/
def frameLoop (g : Graphics) : List Nat → List Op → Run Unit
  | [], trace => { trace := trace, result := .ok () }
  | imageIndex :: later, trace =>
    let frame := drawFrame g imageIndex trace
    match frame.result with
    | .threw what => { trace := frame.trace, result := .threw what }
    | .undefined => { trace := frame.trace, result := .undefined }
    | .ok () => frameLoop g later frame.trace

/-- The function `Graphics::runMainLoop`: the frame loop, then `device.waitIdle()`. -/
def runMainLoop (g : Graphics) (imageIndices : List Nat) (trace : List Op) : Run Unit :=
  let frames := frameLoop g imageIndices trace
  match frames.result with
  | .threw what => { trace := frames.trace, result := .threw what }
  | .undefined => { trace := frames.trace, result := .undefined }
  | .ok () => { trace := frames.trace ++ [Op.waitIdle], result := .ok () }

/-! ## Initialisation and the top level -/

/-- The member functions the constructor of `Graphics` calls in its `try` block. -/
inductive Stage where
  | createVulkanInstance
  | createSurface
  | pickPhysicalDevice
  | createDevice
  | createSwapChain
  | createImageViews
  | createGraphicsPipeline
  | createCommandPool
  | createCommandBuffer
  | createSyncObjects
  deriving DecidableEq, Repr

/-- The calls of the `try` block of the constructor, in the order of the source. -/
def initStages : List Stage :=
  [.createVulkanInstance, .createSurface, .pickPhysicalDevice, .createDevice,
   .createSwapChain, .createImageViews, .createGraphicsPipeline, .createCommandPool,
   .createCommandBuffer, .createSyncObjects]

/-- What the process does, in order: it calls an initialisation stage, writes a
text to `std::cerr`, enters `runMainLoop`, issues an operation to the device,
runs the destructor of `Graphics`. -/
inductive Event where
  | stage (s : Stage)
  | cerr (text : String)
  | runMainLoop
  | op (o : Op)
  | destructor
  deriving DecidableEq, Repr

/-- A run of the constructor or of `main`: the events so far, in order, and how
the call ended. -/
structure Execution (α : Type) where
  events : List Event
  result : Outcome α
  deriving DecidableEq, Repr

/-- How a stage ends whose body computes a value that it stores in a member. -/
def stageOf {α : Type} : Outcome α → Outcome Unit
  | .ok _ => .ok ()
  | .threw what => .threw what
  | .undefined => .undefined

/-- The statements of the `try` block of the constructor that are left to run:
each stage is called in turn, and the first one that does not return ends the
block.  `stageOutcome` tells how each stage ends when it is called. -/
def runStages (stageOutcome : Stage → Outcome Unit) : List Stage → List Event → Execution Unit
  | [], events => { events := events, result := .ok () }
  | s :: later, events =>
    match stageOutcome s with
    | .ok () => runStages stageOutcome later (events ++ [Event.stage s])
    | .threw what => { events := events ++ [Event.stage s], result := .threw what }
    | .undefined => { events := events ++ [Event.stage s], result := .undefined }

/-- The constructor `Graphics::Graphics`, named `constructor` here because
`Graphics` is the structure of the members: the `try` block with the ten stages and
the handler `catch (std::exception const &e)`, which writes two lines to
`std::cerr` and lets the constructor return.  The GLFW calls before the `try`
block do not throw and are left out. -/
def Graphics.constructor (stageOutcome : Stage → Outcome Unit) (events : List Event) :
    Execution Unit :=
  let tried := runStages stageOutcome initStages events
  match tried.result with
  | .ok () => tried
  | .threw what =>
    { events := tried.events ++
        [Event.cerr ("something went wrong while initializing vulkan\n" ++ what ++ "\n")]
      result := .ok () }
  | .undefined => tried

/-- The function `main`: the constructor, then `runMainLoop`, both inside one
`try` block whose handler writes the message to `std::cerr`; the value is the
exit status.  `graphics` holds the members as the constructor leaves them and
`imageIndices` the image indices acquired before the window is closed.  The
`std::unique_ptr` runs the destructor when the block is left. -/
def main (stageOutcome : Stage → Outcome Unit) (graphics : Graphics)
    (imageIndices : List Nat) : Execution Nat :=
  let constructed := Graphics.constructor stageOutcome []
  match constructed.result with
  | .threw what =>
    { events := constructed.events ++ [Event.cerr (what ++ "\n")], result := .ok 0 }
  | .undefined => { events := constructed.events, result := .undefined }
  | .ok () =>
    let loop := runMainLoop graphics imageIndices []
    let events := constructed.events ++ [Event.runMainLoop] ++ loop.trace.map Event.op
    match loop.result with
    | .ok () => { events := events ++ [Event.destructor], result := .ok 0 }
    | .threw what =>
      { events := events ++ [Event.destructor, Event.cerr (what ++ "\n")], result := .ok 0 }
    | .undefined => { events := events, result := .undefined }

/-! ## Properties of traces -/

/-- The operation is an image acquisition. -/
def Op.isAcquire : Op → Bool
  | .acquireNextImageKHR _ _ _ _ => true
  | _ => false

/-- The operation is a wait on exactly the given fence with the unbounded
timeout. -/
def Op.isFenceWait (fence : Nat) : Op → Bool
  | .waitForFences fences _ timeout => fences == [fence] && timeout == UINT64_MAX
  | _ => false

/-- The operation resets the given fence. -/
def Op.isFenceReset (fence : Nat) : Op → Bool
  | .resetFences fences => fences.contains fence
  | _ => false

/-- The operation is a queue submission. -/
def Op.isSubmit : Op → Bool
  | .submit _ _ _ => true
  | _ => false

/-- The operation resets the given command buffer or records into it. -/
def Op.usesCommandBuffer (commandBuffer : Nat) : Op → Bool
  | .reset cb => cb == commandBuffer
  | .record cb _ => cb == commandBuffer
  | _ => false

/-- The effect of one operation on the number of outstanding submissions: a wait
on the fence observes every earlier submission complete, a submission adds one. -/
def outstandingStep (fence : Nat) (n : Nat) (op : Op) : Nat :=
  if op.isFenceWait fence then 0 else if op.isSubmit then n + 1 else n

/-- The number of submissions of a trace that no later wait on the fence has
observed complete. -/
def outstanding (fence : Nat) (trace : List Op) : Nat :=
  trace.foldl (outstandingStep fence) 0

/-- Every wait on the fence and every reset of it comes before every image
acquisition of the trace. -/
def fenceBeforeAcquire (fence : Nat) (ops : List Op) : Prop :=
  ∀ (i j : Nat) (a w : Op), ops[i]? = some a → a.isAcquire = true →
    ops[j]? = some w → (w.isFenceWait fence = true ∨ w.isFenceReset fence = true) → j < i

/-- A `Graphics` with two swapchain images, used to evaluate the frame loop. -/
def exampleGraphics : Graphics :=
  { graphicsQueue := 1
    presentQueue := 2
    swapChain := 3
    swapChainImages := [10, 11]
    swapChainImageViews := [20, 21]
    swapChainExtent := { width := 1024, height := 768 }
    graphicsPipeline := 4
    commandBuffer := 5
    imageAvailableSemaphore := 6
    renderFinishedSemaphore := 7
    inFlightFence := 8 }

/-- A discrete GPU with three queue families: graphics and compute, compute only,
graphics and transfer; families 0 and 1 can present; both required extensions; one
surface format and one present mode. -/
def exampleDiscrete : PhysicalDevice :=
  { handle := 1
    deviceType := .eDiscreteGpu
    queueFamilyProperties := [{ queueFlags := 3 }, { queueFlags := 2 }, { queueFlags := 5 }]
    surfaceSupport := fun i => i == 0 || i == 1
    extensionNames := ["VK_KHR_dynamic_rendering", "VK_KHR_maintenance1", "VK_KHR_swapchain"]
    surfaceCapabilities :=
      { minImageCount := 2, maxImageCount := 0,
        currentExtent := { width := 800, height := 600 },
        minImageExtent := { width := 1, height := 1 },
        maxImageExtent := { width := 4096, height := 4096 },
        currentTransform := 1 }
    surfaceFormats :=
      [{ format := Format.eB8G8R8A8Srgb, colorSpace := ColorSpaceKHR.eSrgbNonlinear }]
    presentModes := [PresentModeKHR.eFifo] }

/-- The device `exampleDiscrete` as an integrated GPU. -/
def exampleIntegrated : PhysicalDevice :=
  { exampleDiscrete with handle := 2, deviceType := .eIntegratedGpu }

/-- The two surface formats of the format-selection example: a format that is not
8-bit BGRA sRGB in a linear colour space, then the preferred format. -/
def exampleFormats : List SurfaceFormatKHR :=
  [{ format := 37, colorSpace := 1000104002 },
   { format := Format.eB8G8R8A8Srgb, colorSpace := ColorSpaceKHR.eSrgbNonlinear }]

/-- After a failed initialisation stage no later stage runs and the main loop is
not entered: neither `runMainLoop` nor an operation of a frame is among the
events. -/
def stopsAfterFailedStage (stageOutcome : Stage → Outcome Unit) (run : Execution Nat) : Prop :=
  ∀ (before : List Stage) (s : Stage) (after : List Stage) (what : String),
    initStages = before ++ s :: after →
    (∀ p ∈ before, stageOutcome p = .ok ()) →
    stageOutcome s = .threw what →
    (∀ later ∈ after, Event.stage later ∉ run.events) ∧
      Event.runMainLoop ∉ run.events ∧ ∀ o, Event.op o ∉ run.events

/-- The device `exampleDiscrete` without the dynamic-rendering extension. -/
def exampleUnsuitable : PhysicalDevice :=
  { exampleDiscrete with handle := 3, extensionNames := ["VK_KHR_swapchain"] }

/-- The stage outcomes of a start on a machine whose only device is
`exampleUnsuitable`: `pickPhysicalDevice` ends as the function does on that
enumeration, every other stage returns. -/
def exampleFailingStart : Stage → Outcome Unit := fun s =>
  if s = .pickPhysicalDevice then stageOf (pickPhysicalDevice [exampleUnsuitable])
  else .ok ()

/-- The members of `Graphics` that no stage has set: null handles, empty vectors. -/
def nullGraphics : Graphics :=
  { graphicsQueue := VK_NULL_HANDLE
    presentQueue := VK_NULL_HANDLE
    swapChain := VK_NULL_HANDLE
    swapChainImages := []
    swapChainImageViews := []
    swapChainExtent := { width := 0, height := 0 }
    graphicsPipeline := VK_NULL_HANDLE
    commandBuffer := VK_NULL_HANDLE
    imageAvailableSemaphore := VK_NULL_HANDLE
    renderFinishedSemaphore := VK_NULL_HANDLE
    inFlightFence := VK_NULL_HANDLE }

/-! ## Definitions used by the statements and the proofs -/

/-- Family `j` of the device has the graphics bit in its flags. -/
def graphicsAt (physDevice : PhysicalDevice) (j : Nat) : Prop :=
  ∃ q, physDevice.queueFamilyProperties[j]? = some q ∧ q.queueFlags.testBit 0 = true

/-- Family `j` of the device exists and reports presentation support for the
surface. -/
def presentAt (physDevice : PhysicalDevice) (j : Nat) : Prop :=
  j < physDevice.queueFamilyProperties.length ∧ physDevice.surfaceSupport j = true

/-- One optional index of the loop of `findQueueFamilies`: the index of the
last family, counted from `i`, that satisfies `P`. -/
def lastWins (P : Nat → QueueFamilyProperties → Bool) :
    List QueueFamilyProperties → Nat → Option Nat → Option Nat
  | [], _, acc => acc
  | q :: rest, i, acc => lastWins P rest (wrap32 (i + 1)) (if P i q then some i else acc)

/-- The greatest rating over the enumeration (0 for an empty one). -/
def maxRating (physicalDevices : List PhysicalDevice) : Nat :=
  (physicalDevices.map physicalDeviceRating).foldr max 0

/-- The entries of a multimap are in ascending order of their keys. -/
def SortedKeys {α : Type} (l : List (Nat × α)) : Prop :=
  l.Pairwise (fun a b => a.1 ≤ b.1)

/-- The preferred surface format: 8-bit BGRA sRGB in the sRGB-nonlinear colour
space. -/
def isPreferredFormat (f : SurfaceFormatKHR) : Prop :=
  f.format = Format.eB8G8R8A8Srgb ∧ f.colorSpace = ColorSpaceKHR.eSrgbNonlinear

/-- A scan of a trace from `n` outstanding submissions: the command buffer is
used only with none outstanding and the count never exceeds one. -/
def safeFrom (fence commandBuffer : Nat) : Nat → List Op → Bool
  | _, [] => true
  | n, op :: rest =>
    (!op.usesCommandBuffer commandBuffer || n == 0) &&
      decide (outstandingStep fence n op ≤ 1) &&
      safeFrom fence commandBuffer (outstandingStep fence n op) rest

/-- The state of a mocked device as far as the in-flight fence is concerned:
whether the fence is signaled, whether a submission that has not completed will
signal it, and how many submissions have not been observed complete. -/
structure FenceState where
  signaled : Bool
  willSignal : Bool
  outstanding : Nat
  deriving DecidableEq, Repr

/-- One operation on the mocked device.  A wait on the fence returns at once when
the fence is signaled and observes nothing new; on an unsignaled fence it returns
when the pending submission that signals the fence has completed, and with it every
earlier submission; with no such submission and the unbounded timeout it never
returns (`none`).  A reset unsignals the fence; a submission adds one outstanding
submission and, when it names the fence, will signal it. -/
def mockStep (fence : Nat) (s : FenceState) : Op → Option FenceState
  | .createFence flags =>
    some { s with signaled := decide (flags &&& FenceCreateFlagBits.eSignaled ≠ 0) }
  | .waitForFences fences _ timeout =>
    if fences = [fence] then
      if s.signaled then some s
      else if s.willSignal then some { signaled := true, willSignal := false, outstanding := 0 }
      else if timeout = UINT64_MAX then none
      else some s
    else some s
  | .resetFences fences =>
    if fence ∈ fences then some { s with signaled := false } else some s
  | .submit _ _ submitFence =>
    some { s with
      outstanding := s.outstanding + 1
      willSignal := s.willSignal || submitFence == fence }
  | _ => some s

/-- The mocked device run over a trace. -/
def mockRun (fence : Nat) : FenceState → List Op → Option FenceState
  | s, [] => some s
  | s, op :: rest =>
    match mockStep fence s op with
    | none => none
    | some next => mockRun fence next rest

/-- A scan of a trace on the mocked device: no operation blocks for ever, the
command buffer is used only with no submission outstanding, and at most one
submission is outstanding after each operation. -/
def mockSafe (fence commandBuffer : Nat) : FenceState → List Op → Bool
  | _, [] => true
  | s, op :: rest =>
    (!op.usesCommandBuffer commandBuffer || s.outstanding == 0) &&
      match mockStep fence s op with
      | none => false
      | some next => decide (next.outstanding ≤ 1) && mockSafe fence commandBuffer next rest

/-- The state of the mocked device before any fence exists. -/
def FenceState.initial : FenceState :=
  { signaled := false, willSignal := false, outstanding := 0 }

/-- The state of the mocked device between two frames: right after
createSyncObjects, or with the one submission of the last frame pending. -/
def FenceState.betweenFrames (s : FenceState) : Prop :=
  s = { signaled := true, willSignal := false, outstanding := 0 } ∨
    s = { signaled := false, willSignal := true, outstanding := 1 }

/-! ## Lemmas -/

theorem loop_graphicsQueue (d : PhysicalDevice) (l : List QueueFamilyProperties) (i : Nat)
    (ind : QueueFamilyIndices) :
    (findQueueFamiliesLoop d l i ind).graphicsQueue =
      lastWins (fun _ q => decide (q.queueFlags &&& QueueFlagBits.eGraphics ≠ 0)) l i
        ind.graphicsQueue := by
  induction l generalizing i ind with
  | nil => rfl
  | cons q rest ih =>
    simp only [findQueueFamiliesLoop, lastWins]
    rw [ih]
    by_cases hq : q.queueFlags &&& QueueFlagBits.eGraphics ≠ 0 <;>
      by_cases hs : d.surfaceSupport i = true <;> simp [hq, hs]

theorem loop_presentQueue (d : PhysicalDevice) (l : List QueueFamilyProperties) (i : Nat)
    (ind : QueueFamilyIndices) :
    (findQueueFamiliesLoop d l i ind).presentQueue =
      lastWins (fun j _ => d.surfaceSupport j) l i ind.presentQueue := by
  induction l generalizing i ind with
  | nil => rfl
  | cons q rest ih =>
    simp only [findQueueFamiliesLoop, lastWins]
    rw [ih]
    by_cases hq : q.queueFlags &&& QueueFlagBits.eGraphics ≠ 0 <;>
      by_cases hs : d.surfaceSupport i = true <;> simp [hq, hs]

theorem wrap32_of_lt {n : Nat} (h : n ≤ UINT32_MAX) : wrap32 n = n := by
  unfold wrap32
  unfold UINT32_MAX at h
  omega

theorem lastWins_none (P : Nat → QueueFamilyProperties → Bool) (l : List QueueFamilyProperties)
    (i : Nat) (acc : Option Nat) (h : i + l.length ≤ UINT32_MAX) :
    lastWins P l i acc = none ↔
      acc = none ∧ ∀ j q, l[j]? = some q → P (i + j) q = false := by
  induction l generalizing i acc with
  | nil => simp [lastWins]
  | cons q rest ih =>
    simp only [List.length_cons] at h
    have h1 : wrap32 (i + 1) = i + 1 := wrap32_of_lt (by omega)
    simp only [lastWins, h1]
    rw [ih (i + 1) _ (by omega)]
    constructor
    · rintro ⟨hacc, hrest⟩
      by_cases hp : P i q = true
      · simp [hp] at hacc
      · simp only [hp] at hacc
        refine ⟨by simpa using hacc, ?_⟩
        intro j q1 hj
        cases j with
        | zero =>
          simp at hj
          subst hj
          simpa using hp
        | succ j =>
          simp at hj
          have := hrest j q1 hj
          rwa [show i + 1 + j = i + (j + 1) by omega] at this
    · rintro ⟨hacc, hall⟩
      have h0 : P i q = false := by simpa using hall 0 q (by simp)
      refine ⟨by simp [h0, hacc], ?_⟩
      intro j q1 hj
      have := hall (j + 1) q1 (by simpa using hj)
      rwa [show i + (j + 1) = i + 1 + j by omega] at this

theorem lastWins_some (P : Nat → QueueFamilyProperties → Bool) (l : List QueueFamilyProperties)
    (i : Nat) (acc : Option Nat) (h : i + l.length ≤ UINT32_MAX) (k : Nat) :
    lastWins P l i acc = some k ↔
      (∃ j q, k = i + j ∧ l[j]? = some q ∧ P (i + j) q = true ∧
        ∀ j1 q1, j < j1 → l[j1]? = some q1 → P (i + j1) q1 = false) ∨
      (acc = some k ∧ ∀ j q, l[j]? = some q → P (i + j) q = false) := by
  induction l generalizing i acc with
  | nil => simp [lastWins]
  | cons q rest ih =>
    simp only [List.length_cons] at h
    have h1 : wrap32 (i + 1) = i + 1 := wrap32_of_lt (by omega)
    simp only [lastWins, h1]
    rw [ih (i + 1) _ (by omega)]
    constructor
    · rintro (⟨j, q1, hk, hj, hp, hlast⟩ | ⟨hacc, hrest⟩)
      · left
        refine ⟨j + 1, q1, by omega, by simpa using hj, ?_, ?_⟩
        · rwa [show i + (j + 1) = i + 1 + j by omega]
        · intro j1 q2 hlt hj1
          cases j1 with
          | zero => omega
          | succ j1 =>
            have := hlast j1 q2 (by omega) (by simpa using hj1)
            rwa [show i + (j1 + 1) = i + 1 + j1 by omega]
      · by_cases hp : P i q = true
        · left
          simp only [hp, if_true, Option.some.injEq] at hacc
          refine ⟨0, q, by omega, by simp, by simpa using hp, ?_⟩
          intro j1 q1 hlt hj1
          cases j1 with
          | zero => omega
          | succ j1 =>
            have := hrest j1 q1 (by simpa using hj1)
            rwa [show i + (j1 + 1) = i + 1 + j1 by omega]
        · right
          simp only [hp] at hacc
          refine ⟨by simpa using hacc, ?_⟩
          intro j q1 hj
          cases j with
          | zero =>
            simp at hj
            subst hj
            simpa using hp
          | succ j =>
            have := hrest j q1 (by simpa using hj)
            rwa [show i + (j + 1) = i + 1 + j by omega]
    · rintro (⟨j, q1, hk, hj, hp, hlast⟩ | ⟨hacc, hall⟩)
      · cases j with
        | zero =>
          right
          simp at hj
          subst hj
          have hp0 : P i q = true := by simpa using hp
          refine ⟨by simp [hp0, hk], ?_⟩
          intro j1 q1 hj1
          have := hlast (j1 + 1) q1 (by omega) (by simpa using hj1)
          rwa [show i + (j1 + 1) = i + 1 + j1 by omega] at this
        | succ j =>
          left
          refine ⟨j, q1, by omega, by simpa using hj, ?_, ?_⟩
          · rwa [show i + (j + 1) = i + 1 + j by omega] at hp
          · intro j1 q2 hlt hj1
            have := hlast (j1 + 1) q2 (by omega) (by simpa using hj1)
            rwa [show i + (j1 + 1) = i + 1 + j1 by omega] at this
      · right
        have h0 : P i q = false := by simpa using hall 0 q (by simp)
        refine ⟨by simp [h0, hacc], ?_⟩
        intro j q1 hj
        have := hall (j + 1) q1 (by simpa using hj)
        rwa [show i + (j + 1) = i + 1 + j by omega] at this

theorem graphicsBit_iff (q : QueueFamilyProperties) :
    decide (q.queueFlags &&& QueueFlagBits.eGraphics ≠ 0) = true ↔
      q.queueFlags.testBit 0 = true := by
  simp only [QueueFlagBits.eGraphics, Nat.and_one_is_mod, Nat.testBit_zero, decide_eq_true_eq]
  omega

theorem graphicsBit_false_iff (q : QueueFamilyProperties) :
    decide (q.queueFlags &&& QueueFlagBits.eGraphics ≠ 0) = false ↔
      ¬ q.queueFlags.testBit 0 = true := by
  rw [← graphicsBit_iff]
  simp

theorem graphicsQueue_eq_some (d : PhysicalDevice)
    (hlen : d.queueFamilyProperties.length ≤ UINT32_MAX) (k : Nat) :
    (findQueueFamilies d).graphicsQueue = some k ↔
      graphicsAt d k ∧ ∀ j, k < j → ¬ graphicsAt d j := by
  unfold findQueueFamilies
  rw [loop_graphicsQueue, lastWins_some _ _ _ _ (by omega)]
  simp only [graphicsAt, graphicsBit_iff, graphicsBit_false_iff, Nat.zero_add]
  constructor
  · rintro (⟨j, q, hk, hj, hp, hlast⟩ | ⟨hacc, _⟩)
    · subst hk
      refine ⟨⟨q, hj, hp⟩, ?_⟩
      rintro j1 hlt ⟨q1, hj1, hp1⟩
      exact hlast j1 q1 hlt hj1 hp1
    · cases hacc
  · rintro ⟨⟨q, hj, hp⟩, hlast⟩
    left
    exact ⟨k, q, rfl, hj, hp, fun j1 q1 hlt hj1 hp1 => hlast j1 hlt ⟨q1, hj1, hp1⟩⟩

theorem graphicsQueue_eq_none (d : PhysicalDevice)
    (hlen : d.queueFamilyProperties.length ≤ UINT32_MAX) :
    (findQueueFamilies d).graphicsQueue = none ↔ ∀ j, ¬ graphicsAt d j := by
  unfold findQueueFamilies
  rw [loop_graphicsQueue, lastWins_none _ _ _ _ (by omega)]
  simp only [graphicsAt, graphicsBit_false_iff, Nat.zero_add, true_and]
  constructor
  · rintro h j ⟨q, hj, hp⟩
    exact h j q hj hp
  · intro h j q hj hp
    exact h j ⟨q, hj, hp⟩

theorem getElem?_some_of_lt {α : Type} (l : List α) (j : Nat) (h : j < l.length) :
    ∃ q, l[j]? = some q := ⟨l[j], List.getElem?_eq_getElem h⟩

theorem lt_of_getElem?_some {α : Type} (l : List α) (j : Nat) (q : α) (h : l[j]? = some q) :
    j < l.length := by
  by_contra hn
  rw [List.getElem?_eq_none (by omega)] at h
  cases h

theorem presentQueue_eq_some (d : PhysicalDevice)
    (hlen : d.queueFamilyProperties.length ≤ UINT32_MAX) (k : Nat) :
    (findQueueFamilies d).presentQueue = some k ↔
      presentAt d k ∧ ∀ j, k < j → ¬ presentAt d j := by
  unfold findQueueFamilies
  rw [loop_presentQueue, lastWins_some _ _ _ _ (by omega)]
  simp only [presentAt, Nat.zero_add]
  constructor
  · rintro (⟨j, q, hk, hj, hp, hlast⟩ | ⟨hacc, _⟩)
    · subst hk
      refine ⟨⟨lt_of_getElem?_some _ _ _ hj, hp⟩, ?_⟩
      rintro j1 hlt ⟨hj1, hp1⟩
      obtain ⟨q1, hq1⟩ := getElem?_some_of_lt _ _ hj1
      have := hlast j1 q1 hlt hq1
      rw [hp1] at this
      cases this
    · cases hacc
  · rintro ⟨⟨hj, hp⟩, hlast⟩
    left
    obtain ⟨q, hq⟩ := getElem?_some_of_lt _ _ hj
    refine ⟨k, q, rfl, hq, hp, ?_⟩
    intro j1 q1 hlt hj1
    have := hlast j1 hlt
    simp only [not_and, Bool.not_eq_true] at this
    exact this (lt_of_getElem?_some _ _ _ hj1)

theorem presentQueue_eq_none (d : PhysicalDevice)
    (hlen : d.queueFamilyProperties.length ≤ UINT32_MAX) :
    (findQueueFamilies d).presentQueue = none ↔ ∀ j, ¬ presentAt d j := by
  unfold findQueueFamilies
  rw [loop_presentQueue, lastWins_none _ _ _ _ (by omega)]
  simp only [presentAt, Nat.zero_add, true_and]
  constructor
  · rintro h j ⟨hj, hp⟩
    obtain ⟨q, hq⟩ := getElem?_some_of_lt _ _ hj
    have := h j q hq
    rw [hp] at this
    cases this
  · intro h j q hj
    have := h j
    simp only [not_and, Bool.not_eq_true] at this
    exact this (lt_of_getElem?_some _ _ _ hj)

theorem complete_iff (indices : QueueFamilyIndices) :
    indices.complete = true ↔
      ∃ g p, indices.graphicsQueue = some g ∧ indices.presentQueue = some p := by
  unfold QueueFamilyIndices.complete
  cases hg : indices.graphicsQueue <;> cases hp : indices.presentQueue <;> simp

theorem mem_foldl_erase (names req : List String) (x : String) :
    x ∈ names.foldl (fun requiredExtensions extensionName =>
        requiredExtensions.filter (fun r => r != extensionName)) req ↔
      x ∈ req ∧ x ∉ names := by
  induction names generalizing req with
  | nil => simp
  | cons n rest ih =>
    simp only [List.foldl_cons, ih, List.mem_filter, List.mem_cons, not_or, bne_iff_ne, ne_eq]
    tauto

theorem checkDeviceExtensionSupport_iff (d : PhysicalDevice) :
    checkDeviceExtensionSupport d = true ↔
      ∀ e ∈ deviceExtensions, e ∈ d.extensionNames := by
  unfold checkDeviceExtensionSupport
  rw [List.isEmpty_iff, List.eq_nil_iff_forall_not_mem]
  simp only [mem_foldl_erase, not_and, not_not]

theorem complete_iff_exists (d : PhysicalDevice)
    (hlen : d.queueFamilyProperties.length ≤ UINT32_MAX) :
    (findQueueFamilies d).complete = true ↔
      (∃ j, graphicsAt d j) ∧ (∃ j, presentAt d j) := by
  have hg := graphicsQueue_eq_none d hlen
  have hp := presentQueue_eq_none d hlen
  unfold QueueFamilyIndices.complete
  rw [Bool.and_eq_true, Option.isSome_iff_ne_none, Option.isSome_iff_ne_none, Ne, Ne, hg, hp]
  simp only [not_forall, not_not]

theorem mem_multimapInsert {α : Type} (entry x : Nat × α) (l : List (Nat × α)) :
    x ∈ multimapInsert entry l ↔ x = entry ∨ x ∈ l := by
  induction l with
  | nil => simp [multimapInsert]
  | cons e rest ih =>
    unfold multimapInsert
    split_ifs
    · simp
    · simp only [List.mem_cons, ih]
      tauto

theorem sortedKeys_multimapInsert {α : Type} (entry : Nat × α) (l : List (Nat × α))
    (h : SortedKeys l) : SortedKeys (multimapInsert entry l) := by
  induction l with
  | nil => simp [multimapInsert, SortedKeys]
  | cons e rest ih =>
    unfold SortedKeys at h ih ⊢
    rw [List.pairwise_cons] at h
    unfold multimapInsert
    split_ifs with hlt
    · rw [List.pairwise_cons]
      refine ⟨?_, List.pairwise_cons.2 h⟩
      intro b hb
      rcases List.mem_cons.1 hb with hb | hb
      · subst hb
        omega
      · have := h.1 b hb
        omega
    · rw [List.pairwise_cons]
      refine ⟨?_, ih h.2⟩
      intro b hb
      rcases (mem_multimapInsert entry b rest).1 hb with hb | hb
      · subst hb
        omega
      · exact h.1 b hb

theorem candidates_fold (devs : List PhysicalDevice) (acc : List (Nat × PhysicalDevice))
    (hacc : SortedKeys acc) :
    SortedKeys (devs.foldl (fun candidates physDevice =>
        multimapInsert (physicalDeviceRating physDevice, physDevice) candidates) acc) ∧
    ∀ x, x ∈ devs.foldl (fun candidates physDevice =>
        multimapInsert (physicalDeviceRating physDevice, physDevice) candidates) acc ↔
      x ∈ acc ∨ ∃ d ∈ devs, x = (physicalDeviceRating d, d) := by
  induction devs generalizing acc with
  | nil => simp [hacc]
  | cons d rest ih =>
    simp only [List.foldl_cons]
    obtain ⟨hs, hm⟩ := ih _ (sortedKeys_multimapInsert (physicalDeviceRating d, d) acc hacc)
    refine ⟨hs, ?_⟩
    intro x
    rw [hm, mem_multimapInsert]
    simp only [List.mem_cons, exists_eq_or_imp]
    tauto

theorem rating_le_maxRating (devs : List PhysicalDevice) (d : PhysicalDevice) (h : d ∈ devs) :
    physicalDeviceRating d ≤ maxRating devs := by
  induction devs with
  | nil => cases h
  | cons e rest ih =>
    simp only [maxRating, List.map_cons, List.foldr_cons]
    rcases List.mem_cons.1 h with h | h
    · subst h
      exact le_max_left _ _
    · exact le_trans (ih h) (le_max_right _ _)

theorem maxRating_le (devs : List PhysicalDevice) (k : Nat)
    (h : ∀ d ∈ devs, physicalDeviceRating d ≤ k) : maxRating devs ≤ k := by
  induction devs with
  | nil => simp [maxRating]
  | cons e rest ih =>
    simp only [maxRating, List.map_cons, List.foldr_cons]
    exact max_le (h e (List.mem_cons_self _ _)) (ih fun d hd => h d (List.mem_cons_of_mem _ hd))

theorem candidates_rbegin (devs : List PhysicalDevice) (hne : devs ≠ []) :
    ∃ d, (candidates devs).getLast? = some (physicalDeviceRating d, d) ∧ d ∈ devs ∧
      physicalDeviceRating d = maxRating devs := by
  obtain ⟨hs, hm⟩ := candidates_fold devs [] (by simp [SortedKeys])
  change SortedKeys (candidates devs) at hs
  have hmem : ∀ x, x ∈ candidates devs ↔ ∃ d ∈ devs, x = (physicalDeviceRating d, d) := by
    intro x
    have := hm x
    simpa using this
  have hcne : candidates devs ≠ [] := by
    obtain ⟨d, rest, rfl⟩ := List.exists_cons_of_ne_nil hne
    intro h
    have : (physicalDeviceRating d, d) ∈ candidates (d :: rest) :=
      (hmem _).2 ⟨d, List.mem_cons_self _ _, rfl⟩
    rw [h] at this
    cases this
  cases hlast : (candidates devs).getLast? with
  | none => exact absurd (List.getLast?_eq_none_iff.1 hlast) hcne
  | some x =>
    obtain ⟨ys, hys⟩ := List.getLast?_eq_some_iff.1 hlast
    have hx : x ∈ candidates devs := by
      rw [hys]
      simp
    obtain ⟨d, hd, rfl⟩ := (hmem x).1 hx
    refine ⟨d, rfl, hd, le_antisymm (rating_le_maxRating devs d hd) (maxRating_le devs _ ?_)⟩
    intro e he
    have hemem : (physicalDeviceRating e, e) ∈ candidates devs := (hmem _).2 ⟨e, he, rfl⟩
    unfold SortedKeys at hs
    rw [hys, List.pairwise_append] at hs
    rw [hys, List.mem_append] at hemem
    rcases hemem with hemem | hemem
    · exact hs.2.2 _ hemem _ (List.mem_singleton_self _)
    · rw [List.mem_singleton] at hemem
      exact le_of_eq (congrArg Prod.fst hemem)

theorem find?_first {α : Type} (p : α → Bool) (l : List α) (i : Nat) (f : α)
    (hi : l[i]? = some f) (hp : p f = true)
    (hbefore : ∀ j g, j < i → l[j]? = some g → p g = false) : l.find? p = some f := by
  induction l generalizing i with
  | nil => simp at hi
  | cons a rest ih =>
    cases i with
    | zero =>
      simp at hi
      subst hi
      simp [List.find?, hp]
    | succ i =>
      have ha : p a = false := hbefore 0 a (by omega) (by simp)
      simp only [List.find?, ha]
      apply ih i (by simpa using hi)
      intro j g hj hg
      exact hbefore (j + 1) g (by omega) (by simpa using hg)

theorem preferred_test_iff (f : SurfaceFormatKHR) :
    (f.format == Format.eB8G8R8A8Srgb && f.colorSpace == ColorSpaceKHR.eSrgbNonlinear) = true ↔
      isPreferredFormat f := by
  simp [isPreferredFormat]

theorem chooseSwapSurfaceFormat_mem (availableFormats : List SurfaceFormatKHR)
    (hne : availableFormats ≠ []) :
    ∃ f ∈ availableFormats, chooseSwapSurfaceFormat availableFormats = .ok f := by
  obtain ⟨a, rest, rfl⟩ := List.exists_cons_of_ne_nil hne
  unfold chooseSwapSurfaceFormat
  cases hfind : (a :: rest).find? (fun availableFormat : SurfaceFormatKHR =>
      availableFormat.format == Format.eB8G8R8A8Srgb &&
        availableFormat.colorSpace == ColorSpaceKHR.eSrgbNonlinear) with
  | some f => exact ⟨f, List.mem_of_find?_eq_some hfind, rfl⟩
  | none => exact ⟨a, List.mem_cons_self _ _, by simp⟩

theorem recordCommandBuffer_trace (g : Graphics) (cmdBuffer imageIndex : Nat)
    (trace : List Op) :
    ∃ rest, (recordCommandBuffer g cmdBuffer imageIndex trace).trace =
        trace ++ Op.record cmdBuffer .begin :: rest ∧
      ∀ op ∈ rest, ∃ cb command, op = Op.record cb command := by
  unfold recordCommandBuffer
  cases hv : g.swapChainImageViews[imageIndex]? with
  | none => exact ⟨[], by simp, by simp⟩
  | some imageView =>
    cases hi : g.swapChainImages[imageIndex]? with
    | none => exact ⟨[], by simp, by simp⟩
    | some image =>
      simp only [cmdTransitionImageLayout, ImageLayout.eColorAttachmentOptimal,
        ImageLayout.ePresentSrcKHR, ImageLayout.eUndefined]
      refine ⟨_, by simp; rfl, ?_⟩
      intro op hop
      simp only [List.mem_cons, List.mem_singleton, List.not_mem_nil, or_false] at hop
      rcases hop with h | h | h | h | h | h | h <;> exact ⟨_, _, h⟩

theorem safeFrom_append (fence cb : Nat) (n : Nat) (x y : List Op) :
    safeFrom fence cb n (x ++ y) =
      (safeFrom fence cb n x && safeFrom fence cb (x.foldl (outstandingStep fence) n) y) := by
  induction x generalizing n with
  | nil => simp [safeFrom]
  | cons op rest ih => simp [safeFrom, ih, Bool.and_assoc]

theorem safeFrom_bound (fence cb : Nat) (n : Nat) (t : List Op)
    (hsafe : safeFrom fence cb n t = true) (hn : n ≤ 1) (a b : List Op) (h : t = a ++ b) :
    a.foldl (outstandingStep fence) n ≤ 1 := by
  induction a generalizing n t with
  | nil => simpa using hn
  | cons op rest ih =>
    subst h
    simp only [List.cons_append, safeFrom, Bool.and_eq_true, decide_eq_true_eq] at hsafe
    simp only [List.foldl_cons]
    exact ih _ _ hsafe.2 hsafe.1.2 rfl

theorem safeFrom_use (fence cb : Nat) (n : Nat) (t : List Op)
    (hsafe : safeFrom fence cb n t = true) (a : List Op) (c : Op) (b : List Op)
    (h : t = a ++ c :: b) (hc : c.usesCommandBuffer cb = true) :
    a.foldl (outstandingStep fence) n = 0 := by
  induction a generalizing n t with
  | nil =>
    subst h
    simp only [List.nil_append, safeFrom, Bool.and_eq_true, hc, Bool.not_true, Bool.false_or,
      beq_iff_eq] at hsafe
    simpa using hsafe.1.1
  | cons op rest ih =>
    subst h
    simp only [List.cons_append, safeFrom, Bool.and_eq_true] at hsafe
    simp only [List.foldl_cons]
    exact ih _ _ hsafe.2 rfl

theorem foldl_outstanding_mono (fence : Nat) (n : Nat) (m : List Op)
    (h : ∀ w ∈ m, w.isFenceWait fence = false) :
    n ≤ m.foldl (outstandingStep fence) n := by
  induction m generalizing n with
  | nil => simp
  | cons op rest ih =>
    simp only [List.foldl_cons]
    have hop : op.isFenceWait fence = false := h op (List.mem_cons_self _ _)
    have hstep : n ≤ outstandingStep fence n op := by
      unfold outstandingStep
      simp only [hop, Bool.false_eq_true, if_false]
      split_ifs <;> omega
    exact le_trans hstep (ih _ fun w hw => h w (List.mem_cons_of_mem _ hw))

theorem isFenceWait_of_isSubmit (fence : Nat) (op : Op) (h : op.isSubmit = true) :
    op.isFenceWait fence = false := by
  cases op <;> simp_all [Op.isSubmit, Op.isFenceWait]

theorem exists_wait_between (fence : Nat) (a m : List Op) (s : Op) (hs : s.isSubmit = true)
    (hpos : (a ++ s :: m).foldl (outstandingStep fence) 0 = 0) :
    ∃ w ∈ m, w.isFenceWait fence = true := by
  by_contra hno
  have hall : ∀ w ∈ m, w.isFenceWait fence = false := by
    intro w hw
    by_contra hw2
    exact hno ⟨w, hw, by simpa using hw2⟩
  rw [List.foldl_append, List.foldl_cons] at hpos
  have hstep : outstandingStep fence (a.foldl (outstandingStep fence) 0) s =
      a.foldl (outstandingStep fence) 0 + 1 := by
    unfold outstandingStep
    simp [isFenceWait_of_isSubmit fence s hs, hs]
  have := foldl_outstanding_mono fence (outstandingStep fence (a.foldl (outstandingStep fence) 0) s)
    m hall
  omega

theorem drawFrame_safe (g : Graphics) (imageIndex : Nat) (trace : List Op) :
    ∃ ops, (drawFrame g imageIndex trace).trace = trace ++ ops ∧
      ∀ n, n ≤ 1 → safeFrom g.inFlightFence g.commandBuffer n ops = true ∧
        ops.foldl (outstandingStep g.inFlightFence) n ≤ 1 := by
  unfold drawFrame recordCommandBuffer
  cases hv : g.swapChainImageViews[imageIndex]? with
  | none =>
    refine ⟨_, by simp; rfl, ?_⟩
    intro n hn
    simp [safeFrom, outstandingStep, Op.isFenceWait, Op.isSubmit, Op.usesCommandBuffer]
    omega
  | some imageView =>
    cases hi : g.swapChainImages[imageIndex]? with
    | none =>
      refine ⟨_, by simp; rfl, ?_⟩
      intro n hn
      simp [safeFrom, outstandingStep, Op.isFenceWait, Op.isSubmit, Op.usesCommandBuffer]
      omega
    | some image =>
      simp only [cmdTransitionImageLayout, ImageLayout.eColorAttachmentOptimal,
        ImageLayout.ePresentSrcKHR, ImageLayout.eUndefined]
      refine ⟨_, by simp; rfl, ?_⟩
      intro n hn
      simp [safeFrom, outstandingStep, Op.isFenceWait, Op.isSubmit, Op.usesCommandBuffer]
      omega

theorem frameLoop_safe (g : Graphics) (imageIndices : List Nat) (trace : List Op) :
    ∃ ops, (frameLoop g imageIndices trace).trace = trace ++ ops ∧
      ∀ n, n ≤ 1 → safeFrom g.inFlightFence g.commandBuffer n ops = true ∧
        ops.foldl (outstandingStep g.inFlightFence) n ≤ 1 := by
  induction imageIndices generalizing trace with
  | nil => exact ⟨[], by simp [frameLoop], fun n hn => ⟨rfl, by simpa using hn⟩⟩
  | cons imageIndex later ih =>
    obtain ⟨ops, hops, hsafe⟩ := drawFrame_safe g imageIndex trace
    unfold frameLoop
    simp only []
    split
    · exact ⟨ops, hops, hsafe⟩
    · exact ⟨ops, hops, hsafe⟩
    · obtain ⟨ops2, hops2, hsafe2⟩ := ih (drawFrame g imageIndex trace).trace
      refine ⟨ops ++ ops2, by rw [hops2, hops, List.append_assoc], ?_⟩
      intro n hn
      obtain ⟨h1, h2⟩ := hsafe n hn
      obtain ⟨h3, h4⟩ := hsafe2 _ h2
      rw [safeFrom_append, List.foldl_append, h1, h3]
      exact ⟨rfl, h4⟩

theorem drawFrame_ok (g : Graphics) (imageIndex : Nat) (trace : List Op)
    (hi : imageIndex < g.swapChainImages.length)
    (hv : imageIndex < g.swapChainImageViews.length) :
    (drawFrame g imageIndex trace).result = .ok () ∧
      ((drawFrame g imageIndex trace).trace.filter Op.isSubmit).length =
        (trace.filter Op.isSubmit).length + 1 := by
  unfold drawFrame recordCommandBuffer
  rw [List.getElem?_eq_getElem hi, List.getElem?_eq_getElem hv]
  simp [cmdTransitionImageLayout, ImageLayout.eColorAttachmentOptimal,
    ImageLayout.ePresentSrcKHR, ImageLayout.eUndefined, Op.isSubmit, List.filter]

theorem frameLoop_ok (g : Graphics) (imageIndices : List Nat) (trace : List Op)
    (h : ∀ i ∈ imageIndices,
      i < g.swapChainImages.length ∧ i < g.swapChainImageViews.length) :
    (frameLoop g imageIndices trace).result = .ok () ∧
      ((frameLoop g imageIndices trace).trace.filter Op.isSubmit).length =
        (trace.filter Op.isSubmit).length + imageIndices.length := by
  induction imageIndices generalizing trace with
  | nil => simp [frameLoop]
  | cons imageIndex later ih =>
    obtain ⟨hi, hv⟩ := h imageIndex (List.mem_cons_self _ _)
    obtain ⟨hres, hcount⟩ := drawFrame_ok g imageIndex trace hi hv
    obtain ⟨h1, h2⟩ := ih (drawFrame g imageIndex trace).trace
      (fun i hmem => h i (List.mem_cons_of_mem _ hmem))
    unfold frameLoop
    simp only [hres]
    refine ⟨h1, ?_⟩
    rw [h2, hcount, List.length_cons]
    omega

theorem mockSafe_append (fence cb : Nat) (s next : FenceState) (x y : List Op)
    (hx : mockSafe fence cb s x = true) (hrun : mockRun fence s x = some next)
    (hy : mockSafe fence cb next y = true) : mockSafe fence cb s (x ++ y) = true := by
  induction x generalizing s with
  | nil =>
    simp only [mockRun, Option.some.injEq] at hrun
    subst hrun
    simpa using hy
  | cons op rest ih =>
    simp only [mockSafe, Bool.and_eq_true] at hx
    simp only [mockRun] at hrun
    simp only [List.cons_append, mockSafe, Bool.and_eq_true]
    refine ⟨hx.1, ?_⟩
    cases hstep : mockStep fence s op with
    | none => simp [hstep] at hx
    | some mid =>
      simp only [hstep, Bool.and_eq_true] at hx hrun ⊢
      exact ⟨hx.2.1, ih mid hx.2.2 hrun⟩

theorem mockSafe_bound (fence cb : Nat) (s : FenceState) (t : List Op)
    (hsafe : mockSafe fence cb s t = true) (hs : s.outstanding ≤ 1) (a b : List Op)
    (h : t = a ++ b) : ∃ next, mockRun fence s a = some next ∧ next.outstanding ≤ 1 := by
  induction a generalizing s t with
  | nil => exact ⟨s, rfl, hs⟩
  | cons op rest ih =>
    subst h
    simp only [List.cons_append, mockSafe, Bool.and_eq_true] at hsafe
    cases hstep : mockStep fence s op with
    | none => simp [hstep] at hsafe
    | some mid =>
      simp only [hstep, Bool.and_eq_true, decide_eq_true_eq] at hsafe
      simp only [mockRun, hstep]
      exact ih mid _ hsafe.2.2 hsafe.2.1 rfl

theorem mockSafe_use (fence cb : Nat) (s : FenceState) (t : List Op)
    (hsafe : mockSafe fence cb s t = true) (a : List Op) (c : Op) (b : List Op)
    (h : t = a ++ c :: b) (hc : c.usesCommandBuffer cb = true) :
    ∃ next, mockRun fence s a = some next ∧ next.outstanding = 0 := by
  induction a generalizing s t with
  | nil =>
    subst h
    simp only [List.nil_append, mockSafe, Bool.and_eq_true, hc, Bool.not_true, Bool.false_or,
      beq_iff_eq] at hsafe
    exact ⟨s, rfl, hsafe.1⟩
  | cons op rest ih =>
    subst h
    simp only [List.cons_append, mockSafe, Bool.and_eq_true] at hsafe
    cases hstep : mockStep fence s op with
    | none => simp [hstep] at hsafe
    | some mid =>
      simp only [hstep, Bool.and_eq_true] at hsafe
      simp only [mockRun, hstep]
      exact ih mid _ hsafe.2.2 rfl

theorem drawFrame_mockSafe (g : Graphics) (imageIndex : Nat) (trace : List Op) :
    ∃ ops, (drawFrame g imageIndex trace).trace = trace ++ ops ∧
      ∀ s : FenceState, s.betweenFrames →
        mockSafe g.inFlightFence g.commandBuffer s ops = true ∧
        ((drawFrame g imageIndex trace).result = .ok () →
          mockRun g.inFlightFence s ops =
            some { signaled := false, willSignal := true, outstanding := 1 }) := by
  unfold drawFrame recordCommandBuffer
  cases hv : g.swapChainImageViews[imageIndex]? with
  | none =>
    refine ⟨_, by simp; rfl, ?_⟩
    rintro s (rfl | rfl) <;>
      simp [mockSafe, mockStep, mockRun, Op.usesCommandBuffer]
  | some imageView =>
    cases hi : g.swapChainImages[imageIndex]? with
    | none =>
      refine ⟨_, by simp; rfl, ?_⟩
      rintro s (rfl | rfl) <;>
        simp [mockSafe, mockStep, mockRun, Op.usesCommandBuffer]
    | some image =>
      simp only [cmdTransitionImageLayout, ImageLayout.eColorAttachmentOptimal,
        ImageLayout.ePresentSrcKHR, ImageLayout.eUndefined]
      refine ⟨_, by simp; rfl, ?_⟩
      rintro s (rfl | rfl) <;>
        simp [mockSafe, mockStep, mockRun, Op.usesCommandBuffer]

theorem frameLoop_mockSafe (g : Graphics) (imageIndices : List Nat) (trace : List Op) :
    ∃ ops, (frameLoop g imageIndices trace).trace = trace ++ ops ∧
      ∀ s : FenceState, s.betweenFrames →
        mockSafe g.inFlightFence g.commandBuffer s ops = true := by
  induction imageIndices generalizing trace with
  | nil => exact ⟨[], by simp [frameLoop], fun s _ => rfl⟩
  | cons imageIndex later ih =>
    obtain ⟨ops, hops, hsafe⟩ := drawFrame_mockSafe g imageIndex trace
    unfold frameLoop
    simp only []
    split
    · exact ⟨ops, hops, fun s hs => (hsafe s hs).1⟩
    · exact ⟨ops, hops, fun s hs => (hsafe s hs).1⟩
    · rename_i hok
      obtain ⟨ops2, hops2, hsafe2⟩ := ih (drawFrame g imageIndex trace).trace
      refine ⟨ops ++ ops2, by rw [hops2, hops, List.append_assoc], ?_⟩
      intro s hs
      obtain ⟨h1, h2⟩ := hsafe s hs
      exact mockSafe_append _ _ s _ ops ops2 h1 (h2 hok) (hsafe2 _ (Or.inr rfl))

theorem recordCommandBuffer_eq (g : Graphics) (cmdBuffer imageIndex : Nat) (trace : List Op)
    (image imageView : Nat) (hi : g.swapChainImages[imageIndex]? = some image)
    (hv : g.swapChainImageViews[imageIndex]? = some imageView) :
    recordCommandBuffer g cmdBuffer imageIndex trace =
      { trace := trace ++ [Op.record cmdBuffer .begin] ++
          (cmdTransitionImageLayout cmdBuffer image ImageLayout.eUndefined
            ImageLayout.eColorAttachmentOptimal []).trace ++
          [Op.record cmdBuffer (.beginRendering
             { renderAreaExtent := g.swapChainExtent
               layerCount := 1
               colorAttachments :=
                 [{ imageView := imageView
                    imageLayout := ImageLayout.eColorAttachmentOptimal
                    loadOp := AttachmentLoadOp.eDontCare
                    storeOp := AttachmentStoreOp.eStore }] }),
           Op.record cmdBuffer (.bindPipeline PipelineBindPoint.eGraphics g.graphicsPipeline),
           Op.record cmdBuffer (.draw 3 1 0 0),
           Op.record cmdBuffer .endRendering] ++
          (cmdTransitionImageLayout cmdBuffer image ImageLayout.eColorAttachmentOptimal
            ImageLayout.ePresentSrcKHR []).trace ++
          [Op.record g.commandBuffer .endCommandBuffer]
        result := .ok () } := by
  unfold recordCommandBuffer
  rw [hi, hv]
  simp [cmdTransitionImageLayout, ImageLayout.eColorAttachmentOptimal,
    ImageLayout.ePresentSrcKHR, ImageLayout.eUndefined]

theorem runStages_fails (stageOutcome : Stage → Outcome Unit) (before : List Stage) (s : Stage)
    (after : List Stage) (what : String) (events : List Event)
    (hbefore : ∀ p ∈ before, stageOutcome p = .ok ())
    (hfail : stageOutcome s = .threw what) :
    runStages stageOutcome (before ++ s :: after) events =
      { events := events ++ (before ++ [s]).map Event.stage, result := .threw what } := by
  induction before generalizing events with
  | nil => simp [runStages, hfail]
  | cons p rest ih =>
    have hp : stageOutcome p = .ok () := hbefore p (List.mem_cons_self _ _)
    rw [List.cons_append, runStages]
    simp only [hp]
    rw [ih _ fun q hq => hbefore q (List.mem_cons_of_mem _ hq)]
    simp

theorem constructor_catches (stageOutcome : Stage → Outcome Unit)
    (before : List Stage) (s : Stage) (after : List Stage) (what : String)
    (hsplit : initStages = before ++ s :: after)
    (hbefore : ∀ p ∈ before, stageOutcome p = .ok ())
    (hfail : stageOutcome s = .threw what) :
    Graphics.constructor stageOutcome [] =
      { events := (before ++ [s]).map Event.stage ++
          [Event.cerr ("something went wrong while initializing vulkan\n" ++ what ++ "\n")]
        result := .ok () } := by
  unfold Graphics.constructor
  rw [hsplit, runStages_fails stageOutcome before s after what [] hbefore hfail]
  simp

/-! ## The claims -/

/-- C1: on a non-empty enumeration pickPhysicalDevice selects a device of the
enumeration whose rating is the maximum rating, and does so exactly when that
maximum is positive; it throws "could not find a suitable device" exactly when the
maximum is 0; a device rated 0 is never selected. -/
theorem pickPhysicalDevice_spec (physicalDevices : List PhysicalDevice)
    (hne : physicalDevices ≠ []) :
    (0 < maxRating physicalDevices →
      ∃ d, pickPhysicalDevice physicalDevices = .ok d ∧ d ∈ physicalDevices ∧
        physicalDeviceRating d = maxRating physicalDevices) ∧
    (maxRating physicalDevices = 0 →
      pickPhysicalDevice physicalDevices = .threw "could not find a suitable device") ∧
    ((∃ d, pickPhysicalDevice physicalDevices = .ok d) ↔ 0 < maxRating physicalDevices) ∧
    ((∃ what, pickPhysicalDevice physicalDevices = .threw what) ↔
      maxRating physicalDevices = 0) ∧
    (∀ d, pickPhysicalDevice physicalDevices = .ok d → physicalDeviceRating d ≠ 0) ∧
    pickPhysicalDevice physicalDevices ≠ .undefined := by
  obtain ⟨d, hlast, hd, hmax⟩ := candidates_rbegin physicalDevices hne
  by_cases hpos : 0 < maxRating physicalDevices
  · have hpick : pickPhysicalDevice physicalDevices = .ok d := by
      unfold pickPhysicalDevice
      rw [hlast]
      simp [hmax, hpos]
    rw [hpick]
    refine ⟨fun _ => ⟨d, rfl, hd, hmax⟩, fun h => by omega,
      ⟨fun _ => hpos, fun _ => ⟨d, rfl⟩⟩, ⟨?_, fun h => by omega⟩, ?_, by simp⟩
    · rintro ⟨what, h⟩
      cases h
    · intro e he
      cases he
      omega
  · have hzero : maxRating physicalDevices = 0 := by omega
    have hpick : pickPhysicalDevice physicalDevices =
        .threw "could not find a suitable device" := by
      unfold pickPhysicalDevice
      rw [hlast]
      simp [hmax, hzero]
    rw [hpick]
    refine ⟨fun h => by omega, fun _ => rfl, ⟨?_, fun h => by omega⟩,
      ⟨fun _ => hzero, fun _ => ⟨_, rfl⟩⟩, ?_, by simp⟩
    · rintro ⟨e, h⟩
      cases h
    · intro e he
      cases he

/-- C1 at a concrete enumeration: an integrated GPU rated 1000, then a discrete GPU
rated 10000; the maximum is 10000 and a device with that rating is selected. -/
theorem pickPhysicalDevice_spec_witness :
    [exampleIntegrated, exampleDiscrete] ≠ [] ∧
    maxRating [exampleIntegrated, exampleDiscrete] = 10000 ∧
    ∃ d, pickPhysicalDevice [exampleIntegrated, exampleDiscrete] = .ok d ∧
      d ∈ [exampleIntegrated, exampleDiscrete] ∧
      physicalDeviceRating d = maxRating [exampleIntegrated, exampleDiscrete] :=
  ⟨by simp, by decide,
    (pickPhysicalDevice_spec [exampleIntegrated, exampleDiscrete] (by simp)).1 (by decide)⟩

/-- C2: physicalDeviceRating is 0 for a device with no graphics-capable family, with
no present-capable family, without one of the required extensions, or (extensions
supported) with an empty surface-format list or an empty present-mode list,
whatever its class; every other device gets the base score of its class: 10000
discrete, 1000 integrated, 100 virtual, 10 CPU, 1 other. -/
theorem physicalDeviceRating_spec (physDevice : PhysicalDevice)
    (hlen : physDevice.queueFamilyProperties.length ≤ UINT32_MAX) :
    ((∀ j, ¬ graphicsAt physDevice j) → physicalDeviceRating physDevice = 0) ∧
    ((∀ j, ¬ presentAt physDevice j) → physicalDeviceRating physDevice = 0) ∧
    ((∃ e ∈ deviceExtensions, e ∉ physDevice.extensionNames) →
      physicalDeviceRating physDevice = 0) ∧
    ((∀ e ∈ deviceExtensions, e ∈ physDevice.extensionNames) →
      (physDevice.surfaceFormats = [] ∨ physDevice.presentModes = []) →
      physicalDeviceRating physDevice = 0) ∧
    ((∃ j, graphicsAt physDevice j) → (∃ j, presentAt physDevice j) →
      (∀ e ∈ deviceExtensions, e ∈ physDevice.extensionNames) →
      physDevice.surfaceFormats ≠ [] → physDevice.presentModes ≠ [] →
      physicalDeviceRating physDevice =
        match physDevice.deviceType with
        | .eDiscreteGpu => 10000
        | .eIntegratedGpu => 1000
        | .eVirtualGpu => 100
        | .eCpu => 10
        | .eOther => 1) := by
  have hc := complete_iff_exists physDevice hlen
  have he := checkDeviceExtensionSupport_iff physDevice
  refine ⟨?_, ?_, ?_, ?_, ?_⟩
  · intro hg
    have : (findQueueFamilies physDevice).complete = false := by
      rw [← Bool.not_eq_true, hc]
      rintro ⟨⟨j, hj⟩, _⟩
      exact hg j hj
    unfold physicalDeviceRating
    simp only [this, querySwapChainSupport]
    split_ifs <;> simp_all
  · intro hp
    have : (findQueueFamilies physDevice).complete = false := by
      rw [← Bool.not_eq_true, hc]
      rintro ⟨_, ⟨j, hj⟩⟩
      exact hp j hj
    unfold physicalDeviceRating
    simp only [this, querySwapChainSupport]
    split_ifs <;> simp_all
  · rintro ⟨e, hmem, hnot⟩
    have : checkDeviceExtensionSupport physDevice = false := by
      rw [← Bool.not_eq_true, he]
      intro h
      exact hnot (h e hmem)
    unfold physicalDeviceRating
    simp [this]
  · intro hall hempty
    have : checkDeviceExtensionSupport physDevice = true := he.2 hall
    unfold physicalDeviceRating
    simp only [this, querySwapChainSupport]
    rcases hempty with h | h <;> simp [h]
  · intro hg hp hall hf hm
    have h1 : checkDeviceExtensionSupport physDevice = true := he.2 hall
    have h2 : (findQueueFamilies physDevice).complete = true := hc.2 ⟨hg, hp⟩
    unfold physicalDeviceRating
    simp only [h1, h2, querySwapChainSupport]
    cases hdt : physDevice.deviceType <;> simp [baseScore, hf, hm]

/-- C2 at two concrete devices: a fully suitable discrete GPU scores 10000 and a
fully suitable integrated GPU 1000. -/
theorem physicalDeviceRating_spec_witness :
    exampleDiscrete.queueFamilyProperties.length ≤ UINT32_MAX ∧
    physicalDeviceRating exampleDiscrete = 10000 ∧
    physicalDeviceRating exampleIntegrated = 1000 :=
  ⟨by decide,
    (physicalDeviceRating_spec exampleDiscrete (by decide)).2.2.2.2
      ⟨0, { queueFlags := 3 }, rfl, by decide⟩ ⟨0, by decide, rfl⟩ (by decide) (by decide)
      (by decide),
    (physicalDeviceRating_spec exampleIntegrated (by decide)).2.2.2.2
      ⟨0, { queueFlags := 3 }, rfl, by decide⟩ ⟨0, by decide, rfl⟩ (by decide) (by decide)
      (by decide)⟩

/-- C3: for a device with at most UINT32_MAX queue families, findQueueFamilies
returns as graphics index the position of the last family whose flags contain the
graphics bit and as present index the position of the last family that reports
presentation support; an index is unset exactly when no family qualifies, and
complete() holds exactly when both indices are set, which the same family may
provide. -/
theorem findQueueFamilies_last_match (physDevice : PhysicalDevice)
    (hlen : physDevice.queueFamilyProperties.length ≤ UINT32_MAX) :
    (∀ k, (findQueueFamilies physDevice).graphicsQueue = some k ↔
      graphicsAt physDevice k ∧ ∀ j, k < j → ¬ graphicsAt physDevice j) ∧
    ((findQueueFamilies physDevice).graphicsQueue = none ↔ ∀ j, ¬ graphicsAt physDevice j) ∧
    (∀ k, (findQueueFamilies physDevice).presentQueue = some k ↔
      presentAt physDevice k ∧ ∀ j, k < j → ¬ presentAt physDevice j) ∧
    ((findQueueFamilies physDevice).presentQueue = none ↔ ∀ j, ¬ presentAt physDevice j) ∧
    ((findQueueFamilies physDevice).complete = true ↔
      ∃ g p, (findQueueFamilies physDevice).graphicsQueue = some g ∧
        (findQueueFamilies physDevice).presentQueue = some p) ∧
    (∀ k, (findQueueFamilies physDevice).graphicsQueue = some k →
      (findQueueFamilies physDevice).presentQueue = some k →
      (findQueueFamilies physDevice).complete = true) :=
  ⟨graphicsQueue_eq_some physDevice hlen, graphicsQueue_eq_none physDevice hlen,
    presentQueue_eq_some physDevice hlen, presentQueue_eq_none physDevice hlen,
    complete_iff _, fun k hg hp => (complete_iff _).2 ⟨k, k, hg, hp⟩⟩

/-- C3 at a concrete device: families 0 and 2 have the graphics bit and families 0 and
1 can present, so the graphics index is 2 and the present index is 1. -/
theorem findQueueFamilies_last_match_witness :
    exampleDiscrete.queueFamilyProperties.length ≤ UINT32_MAX ∧
    findQueueFamilies exampleDiscrete = { graphicsQueue := some 2, presentQueue := some 1 } ∧
    (graphicsAt exampleDiscrete 2 ∧ ∀ j, 2 < j → ¬ graphicsAt exampleDiscrete j) ∧
    (presentAt exampleDiscrete 1 ∧ ∀ j, 1 < j → ¬ presentAt exampleDiscrete j) :=
  ⟨by decide, by decide,
    ((findQueueFamilies_last_match exampleDiscrete (by decide)).1 2).1 (by decide),
    ((findQueueFamilies_last_match exampleDiscrete (by decide)).2.2.1 1).1 (by decide)⟩

/-- C4: on a non-empty list chooseSwapSurfaceFormat returns the first entry that is
8-bit BGRA sRGB with the sRGB-nonlinear colour space when there is one, the entry at
position 0 otherwise, and in both cases an element of the list. -/
theorem chooseSwapSurfaceFormat_spec (availableFormats : List SurfaceFormatKHR)
    (hne : availableFormats ≠ []) :
    (∀ (i : Nat) (f : SurfaceFormatKHR), availableFormats[i]? = some f → isPreferredFormat f →
      (∀ (j : Nat) (g : SurfaceFormatKHR), j < i → availableFormats[j]? = some g →
        ¬ isPreferredFormat g) →
      chooseSwapSurfaceFormat availableFormats = .ok f) ∧
    (∀ first, availableFormats[0]? = some first →
      (∀ f ∈ availableFormats, ¬ isPreferredFormat f) →
      chooseSwapSurfaceFormat availableFormats = .ok first) ∧
    (∃ f ∈ availableFormats, chooseSwapSurfaceFormat availableFormats = .ok f) := by
  refine ⟨?_, ?_, ?_⟩
  · intro i f hi hp hbefore
    have := find?_first (fun availableFormat : SurfaceFormatKHR =>
        availableFormat.format == Format.eB8G8R8A8Srgb &&
          availableFormat.colorSpace == ColorSpaceKHR.eSrgbNonlinear) availableFormats i f hi
      ((preferred_test_iff f).2 hp)
      (fun j g hj hg => by
        rw [← Bool.not_eq_true, preferred_test_iff]
        exact hbefore j g hj hg)
    unfold chooseSwapSurfaceFormat
    rw [this]
  · intro first h0 hnone
    have : availableFormats.find? (fun availableFormat : SurfaceFormatKHR =>
        availableFormat.format == Format.eB8G8R8A8Srgb &&
          availableFormat.colorSpace == ColorSpaceKHR.eSrgbNonlinear) = none := by
      rw [List.find?_eq_none]
      intro x hx
      rw [preferred_test_iff]
      exact hnone x hx
    unfold chooseSwapSurfaceFormat
    rw [this, h0]
  · exact chooseSwapSurfaceFormat_mem availableFormats hne

/-- C4 at the two lists of the specification: the second entry of the two-entry list
is returned, and the only entry of the one-entry list. -/
theorem chooseSwapSurfaceFormat_spec_witness :
    exampleFormats ≠ [] ∧
    chooseSwapSurfaceFormat exampleFormats =
      .ok { format := Format.eB8G8R8A8Srgb, colorSpace := ColorSpaceKHR.eSrgbNonlinear } ∧
    chooseSwapSurfaceFormat [{ format := 37, colorSpace := 1000104002 }] =
      .ok { format := 37, colorSpace := 1000104002 } :=
  ⟨by decide,
    (chooseSwapSurfaceFormat_spec exampleFormats (by decide)).1 1 _ rfl ⟨rfl, rfl⟩ (by
      intro j g hj hg
      have hj0 : j = 0 := by omega
      subst hj0
      cases hg
      simp [isPreferredFormat, Format.eB8G8R8A8Srgb, exampleFormats]),
    (chooseSwapSurfaceFormat_spec [{ format := 37, colorSpace := 1000104002 }]
      (by decide)).2.1 _ rfl (by simp [isPreferredFormat, Format.eB8G8R8A8Srgb])⟩

/-- C5: chooseSwapPresentMode returns Mailbox when Mailbox occurs in the list and
FIFO otherwise, for every list, the empty one and those without FIFO included. -/
theorem chooseSwapPresentMode_spec (availablePresentModes : List Nat) :
    chooseSwapPresentMode availablePresentModes =
      (if PresentModeKHR.eMailbox ∈ availablePresentModes then PresentModeKHR.eMailbox
       else PresentModeKHR.eFifo) ∧
    (chooseSwapPresentMode availablePresentModes = PresentModeKHR.eMailbox ∨
      chooseSwapPresentMode availablePresentModes = PresentModeKHR.eFifo) ∧
    chooseSwapPresentMode [] = PresentModeKHR.eFifo ∧
    chooseSwapPresentMode [0, 3] = PresentModeKHR.eFifo ∧
    chooseSwapPresentMode [PresentModeKHR.eFifo] = PresentModeKHR.eFifo ∧
    chooseSwapPresentMode [PresentModeKHR.eFifo, PresentModeKHR.eMailbox] =
      PresentModeKHR.eMailbox := by
  have key : chooseSwapPresentMode availablePresentModes =
      (if PresentModeKHR.eMailbox ∈ availablePresentModes then PresentModeKHR.eMailbox
       else PresentModeKHR.eFifo) := by
    unfold chooseSwapPresentMode
    cases hfind : availablePresentModes.find? (fun availablePresentMode =>
        availablePresentMode == PresentModeKHR.eMailbox) with
    | some m =>
      have hm : m = PresentModeKHR.eMailbox := by
        simpa using List.find?_some hfind
      have hmem : PresentModeKHR.eMailbox ∈ availablePresentModes :=
        hm ▸ List.mem_of_find?_eq_some hfind
      simp [hm, hmem]
    | none =>
      have hnot : PresentModeKHR.eMailbox ∉ availablePresentModes := by
        intro hmem
        have := List.find?_eq_none.1 hfind _ hmem
        simp at this
      simp [hnot]
  refine ⟨key, ?_, by decide, by decide, by decide, by decide⟩
  rw [key]
  split_ifs
  · exact Or.inl rfl
  · exact Or.inr rfl

/-- C6: chooseSwapExtent returns the current extent unchanged when its width is not
UINT32_MAX; otherwise, for a framebuffer size that is a pair of non-negative ints
and bounds with min at most max on each axis, it returns the framebuffer size with
each axis clamped into its bounds, independently of the other. -/
theorem chooseSwapExtent_spec (capabilities : SurfaceCapabilitiesKHR) (width height : Int) :
    (capabilities.currentExtent.width ≠ UINT32_MAX →
      chooseSwapExtent capabilities width height = .ok capabilities.currentExtent) ∧
    (capabilities.currentExtent.width = UINT32_MAX →
      0 ≤ width → width ≤ 2147483647 → 0 ≤ height → height ≤ 2147483647 →
      capabilities.minImageExtent.width ≤ capabilities.maxImageExtent.width →
      capabilities.minImageExtent.height ≤ capabilities.maxImageExtent.height →
      ∃ extent, chooseSwapExtent capabilities width height = .ok extent ∧
        extent.width =
          max capabilities.minImageExtent.width
            (min capabilities.maxImageExtent.width width.toNat) ∧
        extent.height =
          max capabilities.minImageExtent.height
            (min capabilities.maxImageExtent.height height.toNat) ∧
        capabilities.minImageExtent.width ≤ extent.width ∧
        extent.width ≤ capabilities.maxImageExtent.width ∧
        capabilities.minImageExtent.height ≤ extent.height ∧
        extent.height ≤ capabilities.maxImageExtent.height) ∧
    chooseSwapExtent
      { minImageCount := 2, maxImageCount := 0,
        currentExtent := { width := UINT32_MAX, height := UINT32_MAX },
        minImageExtent := { width := 64, height := 64 },
        maxImageExtent := { width := 1024, height := 1024 },
        currentTransform := 1 } 1200 50 = .ok { width := 1024, height := 64 } := by
  refine ⟨?_, ?_, by decide⟩
  · intro h
    simp [chooseSwapExtent, h]
  · intro hcur hw0 hw1 hh0 hh1 hminmaxw hminmaxh
    have hcw : static_cast_uint32 width = width.toNat := by
      unfold static_cast_uint32
      congr 1
      omega
    have hch : static_cast_uint32 height = height.toNat := by
      unfold static_cast_uint32
      congr 1
      omega
    have e1 : ¬ capabilities.maxImageExtent.width < capabilities.minImageExtent.width := by
      omega
    have e2 : ¬ capabilities.maxImageExtent.height < capabilities.minImageExtent.height := by
      omega
    simp only [chooseSwapExtent, hcur, ne_eq, not_true_eq_false, if_false, clamp, hcw, hch,
      e1, e2]
    refine ⟨_, rfl, ?_, ?_, ?_, ?_, ?_, ?_⟩ <;> dsimp only <;> split_ifs <;> omega

/-- C7: the image count createSwapChain requests is minImageCount + 1 in 32-bit
unsigned arithmetic, replaced by maxImageCount when maxImageCount is nonzero and
smaller than it; a maxImageCount of 0 sets no upper bound.  The count is what the
create info of createSwapChain carries as minImageCount, and createSwapChain does
build a create info for a device with a surface format, complete queue family
indices and a defined current extent. -/
theorem createSwapChain_imageCount (capabilities : SurfaceCapabilitiesKHR) :
    (capabilities.maxImageCount ≠ 0 ∧
        capabilities.maxImageCount < (capabilities.minImageCount + 1) % 4294967296 →
      imageCount capabilities = capabilities.maxImageCount) ∧
    (¬ (capabilities.maxImageCount ≠ 0 ∧
        capabilities.maxImageCount < (capabilities.minImageCount + 1) % 4294967296) →
      imageCount capabilities = (capabilities.minImageCount + 1) % 4294967296) ∧
    (capabilities.maxImageCount = 0 →
      imageCount capabilities = (capabilities.minImageCount + 1) % 4294967296) ∧
    (∀ surface physicalDevice width height createInfo,
      physicalDevice.surfaceCapabilities = capabilities →
      createSwapChain surface physicalDevice width height = .ok createInfo →
      createInfo.minImageCount = imageCount capabilities) ∧
    (∀ (surface : Nat) (physicalDevice : PhysicalDevice) (width height : Int),
      physicalDevice.surfaceCapabilities = capabilities →
      physicalDevice.surfaceFormats ≠ [] →
      (findQueueFamilies physicalDevice).complete = true →
      capabilities.currentExtent.width ≠ UINT32_MAX →
      ∃ createInfo, createSwapChain surface physicalDevice width height = .ok createInfo ∧
        createInfo.minImageCount = imageCount capabilities) ∧
    imageCount
      { minImageCount := 2, maxImageCount := 0,
        currentExtent := { width := 800, height := 600 },
        minImageExtent := { width := 1, height := 1 },
        maxImageExtent := { width := 4096, height := 4096 },
        currentTransform := 1 } = 3 ∧
    imageCount
      { minImageCount := 2, maxImageCount := 2,
        currentExtent := { width := 800, height := 600 },
        minImageExtent := { width := 1, height := 1 },
        maxImageExtent := { width := 4096, height := 4096 },
        currentTransform := 1 } = 2 := by
  have hlink : ∀ (surface : Nat) (physicalDevice : PhysicalDevice) (width height : Int)
      (createInfo : SwapchainCreateInfoKHR),
      physicalDevice.surfaceCapabilities = capabilities →
      createSwapChain surface physicalDevice width height = .ok createInfo →
      createInfo.minImageCount = imageCount capabilities := by
    intro surface physicalDevice width height createInfo hcaps hok
    unfold createSwapChain at hok
    simp only [querySwapChainSupport, hcaps] at hok
    split at hok
    · cases hok
    · cases hok
    · split at hok
      · cases hok
      · cases hok
      · split at hok
        · cases hok
        · cases hok
        · split at hok
          · cases hok
          · cases hok
          · cases hok
            rfl
  refine ⟨?_, ?_, ?_, hlink, ?_, by decide, by decide⟩
  · rintro ⟨h0, hlt⟩
    have : capabilities.maxImageCount > 0 := by omega
    simp [imageCount, wrap32, this, hlt]
  · intro h
    unfold imageCount wrap32
    rw [if_neg]
    intro hc
    exact h ⟨by omega, hc.2⟩
  · intro h
    simp [imageCount, wrap32, h]
  · intro surface physicalDevice width height hcaps hformats hcomplete hdefined
    obtain ⟨f, _, hf⟩ := chooseSwapSurfaceFormat_mem physicalDevice.surfaceFormats hformats
    obtain ⟨gi, pi, hg, hp⟩ := (complete_iff _).1 hcomplete
    have hex : ∃ createInfo,
        createSwapChain surface physicalDevice width height = .ok createInfo := by
      unfold createSwapChain
      simp only [querySwapChainSupport, hcaps, hf, chooseSwapExtent, hdefined, hg, hp,
        optionalValue, ne_eq, not_false_eq_true, if_true]
      exact ⟨_, rfl⟩
    obtain ⟨createInfo, hinfo⟩ := hex
    exact ⟨createInfo, hinfo, hlink surface physicalDevice width height createInfo hcaps hinfo⟩

/-- C8: cmdTransitionImageLayout records, for (Undefined, ColorAttachmentOptimal), one
barrier with empty source access, destination access color-attachment-write, source
stage top-of-pipe and destination stage color-attachment-output; for
(ColorAttachmentOptimal, PresentSrc) one barrier with source access
color-attachment-write, empty destination access, source stage
color-attachment-output and destination stage bottom-of-pipe; for every other pair
it throws "unknown layout transition" and records nothing. -/
theorem cmdTransitionImageLayout_spec (cmdBuffer image : Nat) (trace : List Op) :
    cmdTransitionImageLayout cmdBuffer image ImageLayout.eUndefined
        ImageLayout.eColorAttachmentOptimal trace =
      { trace := trace ++ [Op.record cmdBuffer
          (.pipelineBarrier PipelineStageFlagBits.eTopOfPipe
            PipelineStageFlagBits.eColorAttachmentOutput 0
            [{ srcAccessMask := 0
               dstAccessMask := AccessFlagBits.eColorAttachmentWrite
               oldLayout := ImageLayout.eUndefined
               newLayout := ImageLayout.eColorAttachmentOptimal
               srcQueueFamilyIndex := VK_QUEUE_FAMILY_IGNORED
               dstQueueFamilyIndex := VK_QUEUE_FAMILY_IGNORED
               image := image
               subresourceRange :=
                 { aspectMask := ImageAspectFlagBits.eColor, baseMipLevel := 0, levelCount := 1,
                   baseArrayLayer := 0, layerCount := 1 } }])]
        result := .ok () } ∧
    cmdTransitionImageLayout cmdBuffer image ImageLayout.eColorAttachmentOptimal
        ImageLayout.ePresentSrcKHR trace =
      { trace := trace ++ [Op.record cmdBuffer
          (.pipelineBarrier PipelineStageFlagBits.eColorAttachmentOutput
            PipelineStageFlagBits.eBottomOfPipe 0
            [{ srcAccessMask := AccessFlagBits.eColorAttachmentWrite
               dstAccessMask := 0
               oldLayout := ImageLayout.eColorAttachmentOptimal
               newLayout := ImageLayout.ePresentSrcKHR
               srcQueueFamilyIndex := VK_QUEUE_FAMILY_IGNORED
               dstQueueFamilyIndex := VK_QUEUE_FAMILY_IGNORED
               image := image
               subresourceRange :=
                 { aspectMask := ImageAspectFlagBits.eColor, baseMipLevel := 0, levelCount := 1,
                   baseArrayLayer := 0, layerCount := 1 } }])]
        result := .ok () } ∧
    (∀ oldLayout newLayout : Nat,
      ¬ (oldLayout = ImageLayout.eUndefined ∧
          newLayout = ImageLayout.eColorAttachmentOptimal) →
      ¬ (oldLayout = ImageLayout.eColorAttachmentOptimal ∧
          newLayout = ImageLayout.ePresentSrcKHR) →
      cmdTransitionImageLayout cmdBuffer image oldLayout newLayout trace =
        { trace := trace, result := .threw "unknown layout transition" }) := by
  refine ⟨?_, ?_, ?_⟩
  · simp [cmdTransitionImageLayout]
  · simp [cmdTransitionImageLayout, ImageLayout.eColorAttachmentOptimal,
      ImageLayout.ePresentSrcKHR, ImageLayout.eUndefined]
  · intro oldLayout newLayout h1 h2
    unfold cmdTransitionImageLayout
    simp only [h1, h2, if_false]

/-- C9 as stated fails: in the operations of one drawFrame call the image
acquisition is the first operation, before the fence wait and the fence reset. -/
theorem drawFrame_fence_not_before_acquire :
    ¬ fenceBeforeAcquire exampleGraphics.inFlightFence
        (drawFrame exampleGraphics 0 []).trace := by
  intro h
  have := h 0 1
    (Op.acquireNextImageKHR 3 UINT64_MAX 6 VK_NULL_HANDLE)
    (Op.waitForFences [8] true UINT64_MAX) (by decide) (by decide) (by decide)
    (Or.inl (by decide))
  omega

/-- C9, amended: every drawFrame call issues the image acquisition first (unbounded
timeout, the image-available semaphore, no fence), then the wait on the in-flight
fence with the unbounded timeout, then the reset of that fence, then the reset of the
command buffer and the begin of the recording; what follows holds no further
acquisition, fence wait or fence reset, so the wait and the reset come after the
acquisition and before the recording and the submission. -/
theorem drawFrame_acquire_then_fence (g : Graphics) (imageIndex : Nat) (trace : List Op) :
    ∃ rest, (drawFrame g imageIndex trace).trace =
        trace ++
          [Op.acquireNextImageKHR g.swapChain UINT64_MAX g.imageAvailableSemaphore
             VK_NULL_HANDLE,
           Op.waitForFences [g.inFlightFence] true UINT64_MAX,
           Op.resetFences [g.inFlightFence],
           Op.reset g.commandBuffer,
           Op.record g.commandBuffer .begin] ++ rest ∧
      ∀ op ∈ rest, op.isAcquire = false ∧ op.isFenceWait g.inFlightFence = false ∧
        op.isFenceReset g.inFlightFence = false := by
  obtain ⟨rest, hrest, hrec⟩ := recordCommandBuffer_trace g g.commandBuffer imageIndex
    (trace ++
      [Op.acquireNextImageKHR g.swapChain UINT64_MAX g.imageAvailableSemaphore VK_NULL_HANDLE,
       Op.waitForFences [g.inFlightFence] true UINT64_MAX,
       Op.resetFences [g.inFlightFence],
       Op.reset g.commandBuffer])
  have hclean : ∀ op ∈ rest, op.isAcquire = false ∧ op.isFenceWait g.inFlightFence = false ∧
      op.isFenceReset g.inFlightFence = false := by
    intro op hop
    obtain ⟨cb, command, rfl⟩ := hrec op hop
    exact ⟨rfl, rfl, rfl⟩
  unfold drawFrame
  simp only []
  split
  · exact ⟨rest, by simp [hrest], hclean⟩
  · exact ⟨rest, by simp [hrest], hclean⟩
  · refine ⟨rest ++ [_, _], by simp [hrest]; exact ⟨rfl, rfl⟩, ?_⟩
    intro op hop
    rcases List.mem_append.1 hop with h | h
    · exact hclean op h
    · simp only [List.mem_cons, List.mem_singleton, List.not_mem_nil, or_false] at h
      rcases h with h | h <;> subst h <;> exact ⟨rfl, rfl, rfl⟩

/-- C10: from the state createSyncObjects leaves, for every sequence of acquired image
indices (every number of iterations of the frame loop): on the mocked device no
operation of the trace blocks for ever and at every point of the trace at most one
submission is outstanding; between two submissions there is a wait on the in-flight
fence; between a submission and a later reset of or recording into the command
buffer there is such a wait, and no submission is outstanding when the command buffer
is reset or recorded; with image indices inside the swapchain the loop completes and
submits once per iteration. -/
theorem frameLoop_one_outstanding (g0 g : Graphics) (semaphore1 semaphore2 fence : Nat)
    (trace0 : List Op) (imageIndices : List Nat)
    (hstart : createSyncObjects g0 semaphore1 semaphore2 fence [] =
      { trace := trace0, result := .ok g }) :
    (∀ a b, (frameLoop g imageIndices trace0).trace = a ++ b →
      ∃ s, mockRun g.inFlightFence FenceState.initial a = some s ∧ s.outstanding ≤ 1) ∧
    (∀ a s m s2 b, (frameLoop g imageIndices trace0).trace = a ++ (s :: m) ++ (s2 :: b) →
      s.isSubmit = true → s2.isSubmit = true →
      ∃ w ∈ m, w.isFenceWait g.inFlightFence = true) ∧
    (∀ a s m c b, (frameLoop g imageIndices trace0).trace = a ++ (s :: m) ++ (c :: b) →
      s.isSubmit = true → c.usesCommandBuffer g.commandBuffer = true →
      ∃ w ∈ m, w.isFenceWait g.inFlightFence = true) ∧
    (∀ a c b, (frameLoop g imageIndices trace0).trace = a ++ (c :: b) →
      c.usesCommandBuffer g.commandBuffer = true →
      ∃ s, mockRun g.inFlightFence FenceState.initial a = some s ∧ s.outstanding = 0) ∧
    ((∀ i ∈ imageIndices, i < g.swapChainImages.length ∧ i < g.swapChainImageViews.length) →
      (frameLoop g imageIndices trace0).result = .ok () ∧
      ((frameLoop g imageIndices trace0).trace.filter Op.isSubmit).length =
        imageIndices.length) := by
  have htrace0 : trace0 =
      [Op.createSemaphore, Op.createSemaphore, Op.createFence FenceCreateFlagBits.eSignaled] := by
    have := congrArg Run.trace hstart
    simpa [createSyncObjects] using this.symm
  obtain ⟨ops, hops, hsafe⟩ := frameLoop_safe g imageIndices trace0
  have hall : safeFrom g.inFlightFence g.commandBuffer 0
      (frameLoop g imageIndices trace0).trace = true := by
    rw [hops, safeFrom_append]
    have h0 : trace0.foldl (outstandingStep g.inFlightFence) 0 = 0 := by
      rw [htrace0]
      rfl
    have h1 : safeFrom g.inFlightFence g.commandBuffer 0 trace0 = true := by
      rw [htrace0]
      rfl
    rw [h0, h1, (hsafe 0 (by omega)).1]
    rfl
  have hbound : ∀ a b, (frameLoop g imageIndices trace0).trace = a ++ b →
      outstanding g.inFlightFence a ≤ 1 := fun a b h =>
    safeFrom_bound _ _ 0 _ hall (by omega) a b h
  have huse : ∀ a c b, (frameLoop g imageIndices trace0).trace = a ++ (c :: b) →
      c.usesCommandBuffer g.commandBuffer = true → outstanding g.inFlightFence a = 0 :=
    fun a c b h hc => safeFrom_use _ _ 0 _ hall a c b h hc
  obtain ⟨mops, hmops, hmock⟩ := frameLoop_mockSafe g imageIndices trace0
  have hmall : mockSafe g.inFlightFence g.commandBuffer FenceState.initial
      (frameLoop g imageIndices trace0).trace = true := by
    rw [hmops]
    refine mockSafe_append _ _ FenceState.initial
      { signaled := true, willSignal := false, outstanding := 0 } trace0 mops ?_ ?_
      (hmock _ (Or.inl rfl))
    · rw [htrace0]
      rfl
    · rw [htrace0]
      rfl
  refine ⟨fun a b h => mockSafe_bound _ _ _ _ hmall (by decide) a b h, ?_, ?_,
    fun a c b h hc => mockSafe_use _ _ _ _ hmall a c b h hc, ?_⟩
  · intro a s m s2 b h hs hs2
    by_contra hno
    have hall2 : ∀ w ∈ m, w.isFenceWait g.inFlightFence = false := by
      intro w hw
      by_contra hw2
      exact hno ⟨w, hw, by simpa using hw2⟩
    have hb := hbound (a ++ (s :: m) ++ [s2]) b (by rw [h]; simp)
    unfold outstanding at hb
    rw [List.foldl_append, List.foldl_append, List.foldl_cons] at hb
    simp only [List.foldl_cons, List.foldl_nil] at hb
    have hstep : outstandingStep g.inFlightFence
        (a.foldl (outstandingStep g.inFlightFence) 0) s =
        a.foldl (outstandingStep g.inFlightFence) 0 + 1 := by
      unfold outstandingStep
      simp [isFenceWait_of_isSubmit _ s hs, hs]
    have hmono := foldl_outstanding_mono g.inFlightFence
      (outstandingStep g.inFlightFence (a.foldl (outstandingStep g.inFlightFence) 0) s) m hall2
    have hstep2 : ∀ k, outstandingStep g.inFlightFence k s2 = k + 1 := by
      intro k
      unfold outstandingStep
      simp [isFenceWait_of_isSubmit _ s2 hs2, hs2]
    rw [hstep2] at hb
    omega
  · intro a s m c b h hs hc
    have h0 := huse (a ++ (s :: m)) c b h hc
    exact exists_wait_between g.inFlightFence a m s hs h0
  · intro hin
    obtain ⟨hres, hcount⟩ := frameLoop_ok g imageIndices trace0 hin
    refine ⟨hres, ?_⟩
    rw [hcount, htrace0]
    simp [List.filter, Op.isSubmit]

/-- C10 at a concrete start: two frames on a two-image swapchain. -/
theorem frameLoop_one_outstanding_witness :
    createSyncObjects exampleGraphics 6 7 8 [] =
      { trace := [Op.createSemaphore, Op.createSemaphore,
          Op.createFence FenceCreateFlagBits.eSignaled],
        result := .ok exampleGraphics } ∧
    (∀ a b, (frameLoop exampleGraphics [0, 1] [Op.createSemaphore, Op.createSemaphore,
        Op.createFence FenceCreateFlagBits.eSignaled]).trace = a ++ b →
      ∃ s, mockRun exampleGraphics.inFlightFence FenceState.initial a = some s ∧
        s.outstanding ≤ 1) ∧
    ((frameLoop exampleGraphics [0, 1] [Op.createSemaphore, Op.createSemaphore,
        Op.createFence FenceCreateFlagBits.eSignaled]).trace.filter Op.isSubmit).length = 2 :=
  ⟨by decide,
   (frameLoop_one_outstanding exampleGraphics exampleGraphics 6 7 8 _ [0, 1] (by decide)).1,
   ((frameLoop_one_outstanding exampleGraphics exampleGraphics 6 7 8 _ [0, 1]
      (by decide)).2.2.2.2 (by decide)).2⟩

/-- C11: in a frame whose image index is inside the swapchain, drawFrame hands the
image-available semaphore to the acquisition; its one submission goes to the graphics
queue, waits on exactly that semaphore at the color-attachment-output stage, carries
the command buffer, and signals exactly the render-finished semaphore and the
in-flight fence; its one present request goes to the present queue, waits on exactly
the render-finished semaphore and presents the acquired image index, the index whose
image view the recording targets. -/
theorem drawFrame_submit_present (g : Graphics) (imageIndex : Nat) (trace : List Op)
    (image imageView : Nat) (hi : g.swapChainImages[imageIndex]? = some image)
    (hv : g.swapChainImageViews[imageIndex]? = some imageView) :
    ∃ recorded,
      drawFrame g imageIndex trace =
        { trace := trace ++
            [Op.acquireNextImageKHR g.swapChain UINT64_MAX g.imageAvailableSemaphore
               VK_NULL_HANDLE,
             Op.waitForFences [g.inFlightFence] true UINT64_MAX,
             Op.resetFences [g.inFlightFence],
             Op.reset g.commandBuffer] ++ recorded ++
            [Op.submit g.graphicsQueue
               [{ waitSemaphores := [g.imageAvailableSemaphore]
                  waitDstStageMask := [PipelineStageFlagBits.eColorAttachmentOutput]
                  commandBuffers := [g.commandBuffer]
                  signalSemaphores := [g.renderFinishedSemaphore] }]
               g.inFlightFence,
             Op.presentKHR g.presentQueue
               { waitSemaphores := [g.renderFinishedSemaphore]
                 swapchains := [g.swapChain]
                 imageIndices := [imageIndex] }]
          result := .ok () } ∧
      (∀ op ∈ recorded, ∃ command, op = Op.record g.commandBuffer command) ∧
      Op.record g.commandBuffer (.beginRendering
        { renderAreaExtent := g.swapChainExtent
          layerCount := 1
          colorAttachments :=
            [{ imageView := imageView
               imageLayout := ImageLayout.eColorAttachmentOptimal
               loadOp := AttachmentLoadOp.eDontCare
               storeOp := AttachmentStoreOp.eStore }] }) ∈ recorded := by
  have hrec := recordCommandBuffer_eq g g.commandBuffer imageIndex
    (trace ++
      [Op.acquireNextImageKHR g.swapChain UINT64_MAX g.imageAvailableSemaphore VK_NULL_HANDLE,
       Op.waitForFences [g.inFlightFence] true UINT64_MAX,
       Op.resetFences [g.inFlightFence],
       Op.reset g.commandBuffer]) image imageView hi hv
  refine ⟨[Op.record g.commandBuffer .begin] ++
      (cmdTransitionImageLayout g.commandBuffer image ImageLayout.eUndefined
        ImageLayout.eColorAttachmentOptimal []).trace ++
      [Op.record g.commandBuffer (.beginRendering
         { renderAreaExtent := g.swapChainExtent
           layerCount := 1
           colorAttachments :=
             [{ imageView := imageView
                imageLayout := ImageLayout.eColorAttachmentOptimal
                loadOp := AttachmentLoadOp.eDontCare
                storeOp := AttachmentStoreOp.eStore }] }),
       Op.record g.commandBuffer (.bindPipeline PipelineBindPoint.eGraphics g.graphicsPipeline),
       Op.record g.commandBuffer (.draw 3 1 0 0),
       Op.record g.commandBuffer .endRendering] ++
      (cmdTransitionImageLayout g.commandBuffer image ImageLayout.eColorAttachmentOptimal
        ImageLayout.ePresentSrcKHR []).trace ++
      [Op.record g.commandBuffer .endCommandBuffer], ?_, ?_, ?_⟩
  · unfold drawFrame
    simp only [hrec]
    simp
  · intro op hop
    simp only [cmdTransitionImageLayout, ImageLayout.eColorAttachmentOptimal,
      ImageLayout.ePresentSrcKHR, ImageLayout.eUndefined] at hop
    simp at hop
    rcases hop with h | h | h | h | h | h | h | h <;> exact ⟨_, h⟩
  · simp

/-- C11 at a concrete frame: image index 1 of the two-image swapchain. -/
theorem drawFrame_submit_present_witness :
    exampleGraphics.swapChainImages[1]? = some 11 ∧
    exampleGraphics.swapChainImageViews[1]? = some 21 ∧
    Op.submit 1
        [{ waitSemaphores := [6], waitDstStageMask := [1024], commandBuffers := [5],
           signalSemaphores := [7] }] 8 ∈ (drawFrame exampleGraphics 1 []).trace ∧
    Op.presentKHR 2 { waitSemaphores := [7], swapchains := [3], imageIndices := [1] } ∈
      (drawFrame exampleGraphics 1 []).trace := by
  obtain ⟨recorded, hrun, _, _⟩ :=
    drawFrame_submit_present exampleGraphics 1 [] 11 21 (by decide) (by decide)
  refine ⟨by decide, by decide, ?_, ?_⟩
  · rw [hrun]
    simp [exampleGraphics, PipelineStageFlagBits.eColorAttachmentOutput]
  · rw [hrun]
    simp [exampleGraphics]

/-- C12 on the code: recordCommandBuffer records begin, the first layout transition,
begin rendering, bind pipeline, draw of 3 vertices and 1 instance, end rendering and
the second layout transition on the command buffer it is given, and then ends the
member commandBuffer; called with another command buffer than the member (here 9
against 5) it never ends the one it was given. -/
theorem recordCommandBuffer_ends_member :
    (∀ (g : Graphics) (cmdBuffer imageIndex : Nat) (trace : List Op) (image imageView : Nat),
      g.swapChainImages[imageIndex]? = some image →
      g.swapChainImageViews[imageIndex]? = some imageView →
      recordCommandBuffer g cmdBuffer imageIndex trace =
        { trace := trace ++ [Op.record cmdBuffer .begin] ++
            (cmdTransitionImageLayout cmdBuffer image ImageLayout.eUndefined
              ImageLayout.eColorAttachmentOptimal []).trace ++
            [Op.record cmdBuffer (.beginRendering
               { renderAreaExtent := g.swapChainExtent
                 layerCount := 1
                 colorAttachments :=
                   [{ imageView := imageView
                      imageLayout := ImageLayout.eColorAttachmentOptimal
                      loadOp := AttachmentLoadOp.eDontCare
                      storeOp := AttachmentStoreOp.eStore }] }),
             Op.record cmdBuffer
               (.bindPipeline PipelineBindPoint.eGraphics g.graphicsPipeline),
             Op.record cmdBuffer (.draw 3 1 0 0),
             Op.record cmdBuffer .endRendering] ++
            (cmdTransitionImageLayout cmdBuffer image ImageLayout.eColorAttachmentOptimal
              ImageLayout.ePresentSrcKHR []).trace ++
            [Op.record g.commandBuffer .endCommandBuffer]
          result := .ok () }) ∧
    exampleGraphics.commandBuffer = 5 ∧
    (recordCommandBuffer exampleGraphics 9 1 []).result = .ok () ∧
    (recordCommandBuffer exampleGraphics 9 1 []).trace.getLast? =
      some (Op.record 5 .endCommandBuffer) ∧
    Op.record 9 .endCommandBuffer ∉ (recordCommandBuffer exampleGraphics 9 1 []).trace :=
  ⟨fun g cmdBuffer imageIndex trace image imageView hi hv =>
      recordCommandBuffer_eq g cmdBuffer imageIndex trace image imageView hi hv,
    by decide, by decide, by decide, by decide⟩

/-- C13 on the code: when an initialisation stage throws, the handler inside the
constructor takes the exception and the constructor returns, so main calls
runMainLoop all the same, whichever stage fails and whatever the members hold.  At a
start where pickPhysicalDevice throws on the only, unsuitable device, main enters
runMainLoop on members that no stage has set, issues the image acquisition of the
first frame, and the run ends in undefined behaviour. -/
theorem main_enters_loop_after_failed_stage :
    (∀ (stageOutcome : Stage → Outcome Unit) (before : List Stage) (s : Stage)
        (after : List Stage) (what : String) (graphics : Graphics) (imageIndices : List Nat),
      initStages = before ++ s :: after →
      (∀ p ∈ before, stageOutcome p = .ok ()) →
      stageOutcome s = .threw what →
      Event.runMainLoop ∈ (main stageOutcome graphics imageIndices).events) ∧
    exampleFailingStart .pickPhysicalDevice = .threw "could not find a suitable device" ∧
    main exampleFailingStart nullGraphics [0] =
      { events :=
          [Event.stage .createVulkanInstance, Event.stage .createSurface,
           Event.stage .pickPhysicalDevice,
           Event.cerr ("something went wrong while initializing vulkan\n" ++
             "could not find a suitable device" ++ "\n"),
           Event.runMainLoop,
           Event.op (Op.acquireNextImageKHR VK_NULL_HANDLE UINT64_MAX VK_NULL_HANDLE
             VK_NULL_HANDLE),
           Event.op (Op.waitForFences [VK_NULL_HANDLE] true UINT64_MAX),
           Event.op (Op.resetFences [VK_NULL_HANDLE]),
           Event.op (Op.reset VK_NULL_HANDLE),
           Event.op (Op.record VK_NULL_HANDLE .begin)]
        result := .undefined } ∧
    ¬ stopsAfterFailedStage exampleFailingStart
        (main exampleFailingStart nullGraphics [0]) := by
  refine ⟨?_, by decide, by decide, ?_⟩
  · intro stageOutcome before s after what graphics imageIndices hsplit hbefore hfail
    unfold main
    rw [constructor_catches stageOutcome before s after what hsplit hbefore hfail]
    simp only []
    split <;> simp
  · intro h
    have := h [.createVulkanInstance, .createSurface] .pickPhysicalDevice
      [.createDevice, .createSwapChain, .createImageViews, .createGraphicsPipeline,
       .createCommandPool, .createCommandBuffer, .createSyncObjects]
      "could not find a suitable device" (by decide) (by decide) (by decide)
    exact this.2.1 (by decide)

/-- C14 on the code: with no physical device the candidate map is empty and
pickPhysicalDevice reads its highest-rated entry all the same, which is undefined
behaviour; it does not throw "could not find a suitable device". -/
theorem pickPhysicalDevice_empty :
    candidates [] = [] ∧
    pickPhysicalDevice [] = .undefined ∧
    pickPhysicalDevice [] ≠ .threw "could not find a suitable device" :=
  ⟨rfl, rfl, by simp [pickPhysicalDevice, candidates]⟩

end VulkanBase
